import Mathlib

set_option maxRecDepth 8000

/-!
# Verification of the Cat's FCEUX NES emulator sources

Shallow embedding of the three Python revisions in this repository:

* `RevB` embeds `src/cat'sfceuxhdr11.23.25.0.0v.0.py` (the "hdr" revision,
  the most complete CPU/PPU/bus implementation).
* `RevA` embeds `src/Cat'sFCEUX0.1.1.b.py` (the "0.1.1b" revision).
* `RevC` embeds `src/cat'sfceux1.01122.25.py` (the "1.0" revision).

Conventions used throughout the embedding:

* Python byte arrays are embedded as total functions `Nat → Nat` when the
  source only ever indexes them inside their fixed bounds (all indices are
  masked in the source before use), and as `List Nat` when the source
  depends on their length (`% len`, truthiness tests).
* Python `x & (2^k - 1)` on nonnegative ints is written `x % 2^k`; other
  bit operations use `&&&`, `|||`, `^^^`, `<<<`, `>>>`, which agree with
  Python's operators on nonnegative ints.  Status-flag clearing
  `status &= ~mask` is written `status &&& (0xFF ^^^ mask)`, which agrees
  with Python whenever `status < 256`; the source only ever stores 8-bit
  status values.
* Quantities that can be negative in Python (branch offsets, pixel
  coordinates `cycle - 1`, signed subtractions fed to `& 0xFF`) are
  computed in `Int` with `Int.emod`, matching Python's nonnegative `%`
  and `&` on negative ints.
* Code paths that raise a Python exception are embedded with `Option`
  (`none` = the call raises).
* Unbounded `while` loops are embedded with an explicit fuel parameter;
  the fuel chosen is large enough for every terminating run considered.
-/

namespace RevB

/-- CPU register file, counters and interrupt flags of `class CPU` in the
hdr revision. -/
structure CPUState where
  a : Nat
  x : Nat
  y : Nat
  sp : Nat
  pc : Nat
  status : Nat
  cycles : Nat
  extraCycles : Nat
  totalCycles : Nat
  nmiPending : Bool
  irqPending : Bool

/-- PPU state of `class PPU` in the hdr revision.  `framebuffer`, `vram`,
`oam`, `paletteRam`, `chrRom` are Python bytearrays of fixed size, indexed
only inside bounds by the source, embedded as total functions. -/
structure PPUState where
  cycle : Nat
  scanline : Nat
  frame : Nat
  framebuffer : Nat → Nat
  vram : Nat → Nat
  oam : Nat → Nat
  paletteRam : Nat → Nat
  chrRom : Nat → Nat
  ctrl : Nat
  mask : Nat
  status : Nat
  oamAddr : Nat
  scrollX : Nat
  scrollY : Nat
  vramAddr : Nat
  tempAddr : Nat
  fineX : Nat
  writeToggle : Nat
  readBuffer : Nat

/-- Whole-machine state of `class NES` in the hdr revision.  `paused`
models `sys_bus.console_active or sys_bus.paused`; `romLoaded` models
`sys_bus.rom_loaded`. -/
structure NES where
  cpu : CPUState
  ppu : PPUState
  wram : Nat → Nat
  prgRom : Nat → Nat
  controller1 : Nat
  controller2 : Nat
  controllerStrobe : Nat
  controllerShift : Nat
  frameCount : Nat
  paused : Bool
  romLoaded : Bool

/-- `CPU.get_flag`: `1 if (self.status & mask) else 0`. -/
def getFlag (c : CPUState) (mask : Nat) : Nat :=
  if c.status &&& mask ≠ 0 then 1 else 0

/-- `CPU.set_flag`.  Clearing uses `status & ~mask`, written
`status &&& (0xFF ^^^ mask)` (status values are 8-bit). -/
def setFlag (c : CPUState) (mask : Nat) (b : Bool) : CPUState :=
  if b then { c with status := c.status ||| mask }
  else { c with status := c.status &&& (0xFF ^^^ mask) }

/-- `CPU.set_zn`: set Z from `val == 0` and N from `val & 0x80`. -/
def setZN (c : CPUState) (val : Nat) : CPUState :=
  setFlag (setFlag c 0x02 (val = 0)) 0x80 (val &&& 0x80 ≠ 0)

/-- `PPU.read_reg`: PPU register reads (`$2002` status, `$2004` OAM data,
`$2007` VRAM data, others return 0). -/
def ppuReadReg (p : PPUState) (addr : Nat) : Nat × PPUState :=
  let reg := (addr - 0x2000) % 8
  if reg = 2 then
    let result := (p.status &&& 0xE0) ||| (p.readBuffer &&& 0x1F)
    (result, { p with status := p.status &&& 0x7F, writeToggle := 0 })
  else if reg = 4 then
    (p.oam p.oamAddr, p)
  else if reg = 7 then
    let a := p.vramAddr % 0x4000
    let p1 := { p with
      vramAddr := (p.vramAddr + (if p.ctrl &&& 0x04 ≠ 0 then 32 else 1)) % 0x4000 }
    if a < 0x3F00 then
      (p1.readBuffer, { p1 with readBuffer := p1.vram a })
    else
      (p1.paletteRam (a % 0x20), p1)
  else (0, p)

/-- `PPU.write_reg`: PPU register writes. -/
def ppuWriteReg (p : PPUState) (addr val : Nat) : PPUState :=
  let reg := (addr - 0x2000) % 8
  if reg = 0 then
    { p with ctrl := val, tempAddr := (p.tempAddr &&& 0xF3FF) ||| ((val &&& 0x03) <<< 10) }
  else if reg = 1 then
    { p with mask := val }
  else if reg = 3 then
    { p with oamAddr := val }
  else if reg = 4 then
    { p with oam := fun j => if j = p.oamAddr then val else p.oam j,
             oamAddr := (p.oamAddr + 1) % 0x100 }
  else if reg = 5 then
    if p.writeToggle = 0 then
      { p with fineX := val &&& 0x07,
               tempAddr := (p.tempAddr &&& 0xFFE0) ||| ((val >>> 3) &&& 0x1F),
               writeToggle := 1 }
    else
      let t1 := (p.tempAddr &&& 0x8FFF) ||| ((val &&& 0x07) <<< 12)
      { p with tempAddr := (t1 &&& 0xFC1F) ||| ((val &&& 0xF8) <<< 2),
               writeToggle := 0 }
  else if reg = 6 then
    if p.writeToggle = 0 then
      { p with tempAddr := (p.tempAddr &&& 0x80FF) ||| ((val &&& 0x3F) <<< 8),
               writeToggle := 1 }
    else
      let t1 := (p.tempAddr &&& 0xFF00) ||| val
      { p with tempAddr := t1, vramAddr := t1, writeToggle := 0 }
  else if reg = 7 then
    let a := p.vramAddr % 0x4000
    let p1 :=
      if a < 0x3F00 then { p with vram := fun j => if j = a then val else p.vram j }
      else { p with paletteRam := fun j => if j = a % 0x20 then val else p.paletteRam j }
    { p1 with vramAddr := (p1.vramAddr + (if p1.ctrl &&& 0x04 ≠ 0 then 32 else 1)) % 0x4000 }
  else p

/-- `NES.read`: the bus read.  Mutating PPU register reads are threaded
through the returned state.  The source binds `addr &= 0xFFFF` once; here
the masked address is written out at each use. -/
def nesRead (n : NES) (addr0 : Nat) : Nat × NES :=
  if addr0 % 0x10000 < 0x2000 then
    (n.wram (addr0 % 0x10000 % 0x800), n)
  else if addr0 % 0x10000 < 0x4000 then
    let (v, p) := ppuReadReg n.ppu (addr0 % 0x10000)
    (v, { n with ppu := p })
  else if addr0 % 0x10000 < 0x4020 then
    if addr0 % 0x10000 = 0x4016 then
      if n.controllerStrobe = 0 then
        (n.controllerShift % 2, { n with controllerShift := (n.controllerShift >>> 1) ||| 0x80 })
      else (n.controllerShift % 2, n)
    else (0, n)
  else if 0x8000 ≤ addr0 % 0x10000 then
    (n.prgRom (addr0 % 0x10000 - 0x8000), n)
  else (0, n)

/-- The body of the OAM DMA loop of `NES.write` at `$4014`:
`self.ppu.oam[i] = self.read(start + i)`. -/
def dmaStore (start : Nat) (m : NES) (i : Nat) : NES :=
  let (v, m1) := nesRead m (start + i)
  let oam1 := fun j => if j = i then v else m1.ppu.oam j
  { m1 with ppu := { m1.ppu with oam := oam1 } }

/-- `NES.write` for `$4014`: the OAM DMA loop
`for i in range(256): self.ppu.oam[i] = self.read(start + i)`. -/
def dmaWrite (n : NES) (val : Nat) : NES :=
  (List.range 256).foldl (dmaStore (val <<< 8)) n

/-- `NES.write`: the bus write (RAM, PPU registers, OAM DMA at `$4014`,
controller strobe at `$4016`).  The source binds `addr &= 0xFFFF` and
`val &= 0xFF` once; here the masked values are written out at each
use. -/
def nesWrite (n : NES) (addr0 val0 : Nat) : NES :=
  if addr0 % 0x10000 < 0x2000 then
    { n with wram := fun j => if j = addr0 % 0x10000 % 0x800 then val0 % 0x100 else n.wram j }
  else if addr0 % 0x10000 < 0x4000 then
    { n with ppu := ppuWriteReg n.ppu (addr0 % 0x10000) (val0 % 0x100) }
  else if addr0 % 0x10000 < 0x4020 then
    if addr0 % 0x10000 = 0x4014 then
      dmaWrite n (val0 % 0x100)
    else if addr0 % 0x10000 = 0x4016 then
      if val0 % 0x100 % 2 = 1 ∧ n.controllerStrobe = 0 then
        { n with controllerStrobe := 1 }
      else if val0 % 0x100 % 2 = 0 ∧ n.controllerStrobe ≠ 0 then
        { n with controllerStrobe := 0, controllerShift := n.controller1 }
      else n
    else n
  else n

/-- `NES.read16`: little-endian 16-bit read. -/
def read16 (n : NES) (addr : Nat) : Nat × NES :=
  let (lo, n1) := nesRead n addr
  let (hi, n2) := nesRead n1 (addr + 1)
  ((hi <<< 8) ||| lo, n2)

/-- `CPU.push`. -/
def push (n : NES) (val : Nat) : NES :=
  let n1 := nesWrite n (0x100 + n.cpu.sp) (val % 0x100)
  { n1 with cpu := { n1.cpu with sp := (n1.cpu.sp + 0xFF) % 0x100 } }

/-- `CPU.pop`. -/
def pop (n : NES) : Nat × NES :=
  let n1 := { n with cpu := { n.cpu with sp := (n.cpu.sp + 1) % 0x100 } }
  let (v, n2) := nesRead n1 (0x100 + n1.cpu.sp)
  (v, n2)

/-- `CPU.push16`. -/
def push16 (n : NES) (val : Nat) : NES :=
  push (push n ((val >>> 8) % 0x100)) (val % 0x100)

/-- `CPU.pop16`. -/
def pop16 (n : NES) : Nat × NES :=
  let (lo, n1) := pop n
  let (hi, n2) := pop n1
  ((hi <<< 8) ||| lo, n2)

/-- `CPU.nmi`: the NMI entry sequence. -/
def doNmi (n : NES) : NES :=
  let n1 := push16 n n.cpu.pc
  let n2 := push n1 (n1.cpu.status &&& 0xEF)
  let n3 := { n2 with cpu := setFlag n2.cpu 0x04 true }
  let (v, n4) := read16 n3 0xFFFA
  { n4 with cpu := { n4.cpu with pc := v, cycles := 7 } }

/-- `CPU.irq`: the IRQ entry sequence (guarded on the I flag). -/
def doIrq (n : NES) : NES :=
  if getFlag n.cpu 0x04 = 0 then
    let n1 := push16 n n.cpu.pc
    let n2 := push n1 (n1.cpu.status &&& 0xEF)
    let n3 := { n2 with cpu := setFlag n2.cpu 0x04 true }
    let (v, n4) := read16 n3 0xFFFE
    { n4 with cpu := { n4.cpu with pc := v, cycles := 7 } }
  else n

/-- Addressing modes of the hdr revision CPU. -/
inductive Mode
  | imm | zp | zpx | zpy | abs | absx | absy | ind | indx | indy

/-- Instructions that resolve an address through a `Mode`. -/
inductive MemOp
  | lda | ldx | ldy | sta | stx | sty
  | anda | ora | eor | bita
  | adc | sbc | cmp | cpx | cpy
  | inc | dec
  | asl | lsr | rol | ror
  | jmp | jsr

/-- Implied / stack / flag instructions that take no address. -/
inductive ImpOp
  | tax | tay | txa | tya | tsx | txs
  | pha | php | pla | plp
  | inx | dex | iny | dey
  | clc | sec | cli | sei | clv | cld | sed
  | nop | brk | rti | rts

/-- A dispatch-table entry: the closure stored in `op_table`. -/
inductive Entry
  | mem (op : MemOp) (m : Mode)
  | acc (op : MemOp)
  | imp (op : ImpOp)
  | br (mask : Nat) (ifSet : Bool)

/-- Resolve an addressing mode: `addr_imm` … `addr_indy` of the hdr
revision.  Returns the effective address and the threaded machine state
(operand fetches go through the bus). -/
def resolveMode (n : NES) (m : Mode) : Nat × NES :=
  match m with
  | .imm =>
      (n.cpu.pc, { n with cpu := { n.cpu with pc := n.cpu.pc + 1 } })
  | .zp =>
      let (v, n1) := nesRead n n.cpu.pc
      (v % 0x100, { n1 with cpu := { n1.cpu with pc := n1.cpu.pc + 1 } })
  | .zpx =>
      let (v, n1) := nesRead n n.cpu.pc
      ((v + n1.cpu.x) % 0x100, { n1 with cpu := { n1.cpu with pc := n1.cpu.pc + 1 } })
  | .zpy =>
      let (v, n1) := nesRead n n.cpu.pc
      ((v + n1.cpu.y) % 0x100, { n1 with cpu := { n1.cpu with pc := n1.cpu.pc + 1 } })
  | .abs =>
      let (lo, n1) := nesRead n n.cpu.pc
      let n1 := { n1 with cpu := { n1.cpu with pc := n1.cpu.pc + 1 } }
      let (hi, n2) := nesRead n1 n1.cpu.pc
      let n2 := { n2 with cpu := { n2.cpu with pc := n2.cpu.pc + 1 } }
      ((hi <<< 8) ||| lo, n2)
  | .absx =>
      let (lo, n1) := nesRead n n.cpu.pc
      let n1 := { n1 with cpu := { n1.cpu with pc := n1.cpu.pc + 1 } }
      let (hi, n2) := nesRead n1 n1.cpu.pc
      let n2 := { n2 with cpu := { n2.cpu with pc := n2.cpu.pc + 1 } }
      let base := (hi <<< 8) ||| lo
      let addr := (base + n2.cpu.x) % 0x10000
      let n3 :=
        if addr &&& 0xFF00 ≠ base &&& 0xFF00 then
          { n2 with cpu := { n2.cpu with extraCycles := 1 } }
        else n2
      (addr, n3)
  | .absy =>
      let (lo, n1) := nesRead n n.cpu.pc
      let n1 := { n1 with cpu := { n1.cpu with pc := n1.cpu.pc + 1 } }
      let (hi, n2) := nesRead n1 n1.cpu.pc
      let n2 := { n2 with cpu := { n2.cpu with pc := n2.cpu.pc + 1 } }
      let base := (hi <<< 8) ||| lo
      let addr := (base + n2.cpu.y) % 0x10000
      let n3 :=
        if addr &&& 0xFF00 ≠ base &&& 0xFF00 then
          { n2 with cpu := { n2.cpu with extraCycles := 1 } }
        else n2
      (addr, n3)
  | .ind =>
      let (lo, n1) := nesRead n n.cpu.pc
      let n1 := { n1 with cpu := { n1.cpu with pc := n1.cpu.pc + 1 } }
      let (hi, n2) := nesRead n1 n1.cpu.pc
      let n2 := { n2 with cpu := { n2.cpu with pc := n2.cpu.pc + 1 } }
      let ptr := (hi <<< 8) ||| lo
      if lo = 0xFF then
        let (a, n3) := nesRead n2 ptr
        let (b, n4) := nesRead n3 (ptr &&& 0xFF00)
        (a ||| (b <<< 8), n4)
      else
        let (a, n3) := nesRead n2 ptr
        let (b, n4) := nesRead n3 (ptr + 1)
        (a ||| (b <<< 8), n4)
  | .indx =>
      let (v, n1) := nesRead n n.cpu.pc
      let zp := (v + n1.cpu.x) % 0x100
      let n1 := { n1 with cpu := { n1.cpu with pc := n1.cpu.pc + 1 } }
      let (lo, n2) := nesRead n1 zp
      let (hi, n3) := nesRead n2 ((zp + 1) % 0x100)
      ((hi <<< 8) ||| lo, n3)
  | .indy =>
      let (zp, n1) := nesRead n n.cpu.pc
      let n1 := { n1 with cpu := { n1.cpu with pc := n1.cpu.pc + 1 } }
      let (lo, n2) := nesRead n1 zp
      let (hi, n3) := nesRead n2 ((zp + 1) % 0x100)
      let base := (hi <<< 8) ||| lo
      let addr := (base + n3.cpu.y) % 0x10000
      let n4 :=
        if addr &&& 0xFF00 ≠ base &&& 0xFF00 then
          { n3 with cpu := { n3.cpu with extraCycles := 1 } }
        else n3
      (addr, n4)

/-- Execute an address-taking instruction (`op_lda` … `op_jsr`).  `addr? =
none` is the accumulator form of the shift instructions. -/
def execMemOp (n : NES) (op : MemOp) (addr? : Option Nat) : NES :=
  match op with
  | .lda =>
      let (v, n1) := nesRead n (addr?.getD 0)
      { n1 with cpu := setZN { n1.cpu with a := v } v }
  | .ldx =>
      let (v, n1) := nesRead n (addr?.getD 0)
      { n1 with cpu := setZN { n1.cpu with x := v } v }
  | .ldy =>
      let (v, n1) := nesRead n (addr?.getD 0)
      { n1 with cpu := setZN { n1.cpu with y := v } v }
  | .sta => nesWrite n (addr?.getD 0) n.cpu.a
  | .stx => nesWrite n (addr?.getD 0) n.cpu.x
  | .sty => nesWrite n (addr?.getD 0) n.cpu.y
  | .anda =>
      let (v, n1) := nesRead n (addr?.getD 0)
      let a := n1.cpu.a &&& v
      { n1 with cpu := setZN { n1.cpu with a := a } a }
  | .ora =>
      let (v, n1) := nesRead n (addr?.getD 0)
      let a := n1.cpu.a ||| v
      { n1 with cpu := setZN { n1.cpu with a := a } a }
  | .eor =>
      let (v, n1) := nesRead n (addr?.getD 0)
      let a := n1.cpu.a ^^^ v
      { n1 with cpu := setZN { n1.cpu with a := a } a }
  | .bita =>
      let (v, n1) := nesRead n (addr?.getD 0)
      let c1 := setFlag n1.cpu 0x80 (v &&& 0x80 ≠ 0)
      let c2 := setFlag c1 0x40 (v &&& 0x40 ≠ 0)
      { n1 with cpu := setFlag c2 0x02 (c2.a &&& v = 0) }
  | .adc =>
      let (v, n1) := nesRead n (addr?.getD 0)
      let carry := getFlag n1.cpu 0x01
      let result := n1.cpu.a + v + carry
      let c1 := setFlag n1.cpu 0x01 (result > 0xFF)
      let c2 := setFlag c1 0x40 ((c1.a ^^^ result) &&& (v ^^^ result) &&& 0x80 ≠ 0)
      let a := result % 0x100
      { n1 with cpu := setZN { c2 with a := a } a }
  | .sbc =>
      let (v0, n1) := nesRead n (addr?.getD 0)
      let v := v0 ^^^ 0xFF
      let carry := getFlag n1.cpu 0x01
      let result := n1.cpu.a + v + carry
      let c1 := setFlag n1.cpu 0x01 (result > 0xFF)
      let c2 := setFlag c1 0x40 ((c1.a ^^^ result) &&& (v ^^^ result) &&& 0x80 ≠ 0)
      let a := result % 0x100
      { n1 with cpu := setZN { c2 with a := a } a }
  | .cmp =>
      let (v, n1) := nesRead n (addr?.getD 0)
      let result := (((n1.cpu.a : Int) - v).emod 0x200).toNat
      let c1 := setFlag n1.cpu 0x01 (n1.cpu.a ≥ v)
      { n1 with cpu := setZN c1 (result % 0x100) }
  | .cpx =>
      let (v, n1) := nesRead n (addr?.getD 0)
      let result := (((n1.cpu.x : Int) - v).emod 0x200).toNat
      let c1 := setFlag n1.cpu 0x01 (n1.cpu.x ≥ v)
      { n1 with cpu := setZN c1 (result % 0x100) }
  | .cpy =>
      let (v, n1) := nesRead n (addr?.getD 0)
      let result := (((n1.cpu.y : Int) - v).emod 0x200).toNat
      let c1 := setFlag n1.cpu 0x01 (n1.cpu.y ≥ v)
      { n1 with cpu := setZN c1 (result % 0x100) }
  | .inc =>
      let (v0, n1) := nesRead n (addr?.getD 0)
      let v := (v0 + 1) % 0x100
      let n2 := nesWrite n1 (addr?.getD 0) v
      { n2 with cpu := setZN n2.cpu v }
  | .dec =>
      let (v0, n1) := nesRead n (addr?.getD 0)
      let v := (((v0 : Int) - 1).emod 0x100).toNat
      let n2 := nesWrite n1 (addr?.getD 0) v
      { n2 with cpu := setZN n2.cpu v }
  | .asl =>
      match addr? with
      | none =>
          let c1 := setFlag n.cpu 0x01 (n.cpu.a &&& 0x80 ≠ 0)
          let a := (c1.a <<< 1) % 0x100
          { n with cpu := setZN { c1 with a := a } a }
      | some addr =>
          let (v0, n1) := nesRead n addr
          let c1 := setFlag n1.cpu 0x01 (v0 &&& 0x80 ≠ 0)
          let v := (v0 <<< 1) % 0x100
          let n2 := nesWrite { n1 with cpu := c1 } addr v
          { n2 with cpu := setZN n2.cpu v }
  | .lsr =>
      match addr? with
      | none =>
          let c1 := setFlag n.cpu 0x01 (n.cpu.a &&& 0x01 ≠ 0)
          let a := c1.a >>> 1
          { n with cpu := setZN { c1 with a := a } a }
      | some addr =>
          let (v0, n1) := nesRead n addr
          let c1 := setFlag n1.cpu 0x01 (v0 &&& 0x01 ≠ 0)
          let v := v0 >>> 1
          let n2 := nesWrite { n1 with cpu := c1 } addr v
          { n2 with cpu := setZN n2.cpu v }
  | .rol =>
      match addr? with
      | none =>
          let carry := getFlag n.cpu 0x01
          let c1 := setFlag n.cpu 0x01 (n.cpu.a &&& 0x80 ≠ 0)
          let a := ((c1.a <<< 1) ||| carry) % 0x100
          { n with cpu := setZN { c1 with a := a } a }
      | some addr =>
          let (v0, n1) := nesRead n addr
          let carry := getFlag n1.cpu 0x01
          let c1 := setFlag n1.cpu 0x01 (v0 &&& 0x80 ≠ 0)
          let v := ((v0 <<< 1) ||| carry) % 0x100
          let n2 := nesWrite { n1 with cpu := c1 } addr v
          { n2 with cpu := setZN n2.cpu v }
  | .ror =>
      match addr? with
      | none =>
          let carry := getFlag n.cpu 0x01
          let c1 := setFlag n.cpu 0x01 (n.cpu.a &&& 0x01 ≠ 0)
          let a := (c1.a >>> 1) ||| (carry <<< 7)
          { n with cpu := setZN { c1 with a := a } a }
      | some addr =>
          let (v0, n1) := nesRead n addr
          let carry := getFlag n1.cpu 0x01
          let c1 := setFlag n1.cpu 0x01 (v0 &&& 0x01 ≠ 0)
          let v := (v0 >>> 1) ||| (carry <<< 7)
          let n2 := nesWrite { n1 with cpu := c1 } addr v
          { n2 with cpu := setZN n2.cpu v }
  | .jmp =>
      { n with cpu := { n.cpu with pc := addr?.getD 0 } }
  | .jsr =>
      let n1 := push16 n (n.cpu.pc - 1)
      { n1 with cpu := { n1.cpu with pc := addr?.getD 0 } }

/-- Execute an implied instruction (`op_tax` … `op_brk`). -/
def execImpOp (n : NES) (op : ImpOp) : NES :=
  match op with
  | .tax => { n with cpu := setZN { n.cpu with x := n.cpu.a } n.cpu.a }
  | .tay => { n with cpu := setZN { n.cpu with y := n.cpu.a } n.cpu.a }
  | .txa => { n with cpu := setZN { n.cpu with a := n.cpu.x } n.cpu.x }
  | .tya => { n with cpu := setZN { n.cpu with a := n.cpu.y } n.cpu.y }
  | .tsx => { n with cpu := setZN { n.cpu with x := n.cpu.sp } n.cpu.sp }
  | .txs => { n with cpu := { n.cpu with sp := n.cpu.x } }
  | .pha => push n n.cpu.a
  | .php => push n (n.cpu.status ||| 0x30)
  | .pla =>
      let (v, n1) := pop n
      { n1 with cpu := setZN { n1.cpu with a := v } v }
  | .plp =>
      let (v, n1) := pop n
      { n1 with cpu := { n1.cpu with status := (v &&& 0xEF) ||| 0x20 } }
  | .inx =>
      let x := (n.cpu.x + 1) % 0x100
      { n with cpu := setZN { n.cpu with x := x } x }
  | .dex =>
      let x := (((n.cpu.x : Int) - 1).emod 0x100).toNat
      { n with cpu := setZN { n.cpu with x := x } x }
  | .iny =>
      let y := (n.cpu.y + 1) % 0x100
      { n with cpu := setZN { n.cpu with y := y } y }
  | .dey =>
      let y := (((n.cpu.y : Int) - 1).emod 0x100).toNat
      { n with cpu := setZN { n.cpu with y := y } y }
  | .clc => { n with cpu := setFlag n.cpu 0x01 false }
  | .sec => { n with cpu := setFlag n.cpu 0x01 true }
  | .cli => { n with cpu := setFlag n.cpu 0x04 false }
  | .sei => { n with cpu := setFlag n.cpu 0x04 true }
  | .clv => { n with cpu := setFlag n.cpu 0x40 false }
  | .cld => { n with cpu := setFlag n.cpu 0x08 false }
  | .sed => { n with cpu := setFlag n.cpu 0x08 true }
  | .nop => n
  | .brk =>
      let n1 := { n with cpu := { n.cpu with pc := n.cpu.pc + 1 } }
      let n2 := push16 n1 n1.cpu.pc
      let n3 := push n2 (n2.cpu.status ||| 0x30)
      let n4 := { n3 with cpu := setFlag n3.cpu 0x04 true }
      let (v, n5) := read16 n4 0xFFFE
      { n5 with cpu := { n5.cpu with pc := v } }
  | .rti =>
      let (v, n1) := pop n
      let n2 := { n1 with cpu := { n1.cpu with status := (v &&& 0xEF) ||| 0x20 } }
      let (p, n3) := pop16 n2
      { n3 with cpu := { n3.cpu with pc := p } }
  | .rts =>
      let (p, n1) := pop16 n
      { n1 with cpu := { n1.cpu with pc := p + 1 } }

/-- `CPU.branch`: read the signed offset, take the branch when `cond`, and
record the extra cycles (1 when taken, 2 when the target page differs from
the page of the instruction's end). -/
def branch (n : NES) (cond : Bool) : NES :=
  if cond then
    let (offset, n1) := nesRead n n.cpu.pc
    let n2 := { n1 with cpu := { n1.cpu with pc := n1.cpu.pc + 1 } }
    let off : Int := if offset &&& 0x80 ≠ 0 then (offset : Int) - 256 else (offset : Int)
    let oldPc : Nat := n2.cpu.pc
    let newPc := ((Int.ofNat oldPc + off).emod 0x10000).toNat
    let extra := if oldPc &&& 0xFF00 ≠ newPc &&& 0xFF00 then 2 else 1
    { n2 with cpu := { n2.cpu with pc := newPc, extraCycles := extra } }
  else
    { n with cpu := { n.cpu with pc := n.cpu.pc + 1 } }

/-- Execute one dispatch-table entry. -/
def execEntry (n : NES) (e : Entry) : NES :=
  match e with
  | .mem op m =>
      let (addr, n1) := resolveMode n m
      execMemOp n1 op (some addr)
  | .acc op => execMemOp n op none
  | .imp op => execImpOp n op
  | .br mask ifSet =>
      branch n (if ifSet then n.cpu.status &&& mask ≠ 0 else n.cpu.status &&& mask = 0)

/-- `CPU.build_instruction_set` of the hdr revision: the 256-entry
dispatch table, as (entry, base cycles); `none` = opcode absent from
`op_table`. -/
def opTable (opcode : Nat) : Option (Entry × Nat) :=
  if opcode = 0x00 then some (.imp .brk, 7)
  else if opcode = 0xEA then some (.imp .nop, 2)
  else if opcode = 0x40 then some (.imp .rti, 6)
  else if opcode = 0x60 then some (.imp .rts, 6)
  else if opcode = 0xA9 then some (.mem .lda .imm, 2)
  else if opcode = 0xA5 then some (.mem .lda .zp, 3)
  else if opcode = 0xB5 then some (.mem .lda .zpx, 4)
  else if opcode = 0xAD then some (.mem .lda .abs, 4)
  else if opcode = 0xBD then some (.mem .lda .absx, 4)
  else if opcode = 0xB9 then some (.mem .lda .absy, 4)
  else if opcode = 0xA1 then some (.mem .lda .indx, 6)
  else if opcode = 0xB1 then some (.mem .lda .indy, 5)
  else if opcode = 0xA2 then some (.mem .ldx .imm, 2)
  else if opcode = 0xA6 then some (.mem .ldx .zp, 3)
  else if opcode = 0xB6 then some (.mem .ldx .zpy, 4)
  else if opcode = 0xAE then some (.mem .ldx .abs, 4)
  else if opcode = 0xBE then some (.mem .ldx .absy, 4)
  else if opcode = 0xA0 then some (.mem .ldy .imm, 2)
  else if opcode = 0xA4 then some (.mem .ldy .zp, 3)
  else if opcode = 0xB4 then some (.mem .ldy .zpx, 4)
  else if opcode = 0xAC then some (.mem .ldy .abs, 4)
  else if opcode = 0xBC then some (.mem .ldy .absx, 4)
  else if opcode = 0x85 then some (.mem .sta .zp, 3)
  else if opcode = 0x95 then some (.mem .sta .zpx, 4)
  else if opcode = 0x8D then some (.mem .sta .abs, 4)
  else if opcode = 0x9D then some (.mem .sta .absx, 5)
  else if opcode = 0x99 then some (.mem .sta .absy, 5)
  else if opcode = 0x81 then some (.mem .sta .indx, 6)
  else if opcode = 0x91 then some (.mem .sta .indy, 6)
  else if opcode = 0x86 then some (.mem .stx .zp, 3)
  else if opcode = 0x96 then some (.mem .stx .zpy, 4)
  else if opcode = 0x8E then some (.mem .stx .abs, 4)
  else if opcode = 0x84 then some (.mem .sty .zp, 3)
  else if opcode = 0x94 then some (.mem .sty .zpx, 4)
  else if opcode = 0x8C then some (.mem .sty .abs, 4)
  else if opcode = 0xAA then some (.imp .tax, 2)
  else if opcode = 0xA8 then some (.imp .tay, 2)
  else if opcode = 0x8A then some (.imp .txa, 2)
  else if opcode = 0x98 then some (.imp .tya, 2)
  else if opcode = 0xBA then some (.imp .tsx, 2)
  else if opcode = 0x9A then some (.imp .txs, 2)
  else if opcode = 0x48 then some (.imp .pha, 3)
  else if opcode = 0x08 then some (.imp .php, 3)
  else if opcode = 0x68 then some (.imp .pla, 4)
  else if opcode = 0x28 then some (.imp .plp, 4)
  else if opcode = 0x29 then some (.mem .anda .imm, 2)
  else if opcode = 0x25 then some (.mem .anda .zp, 3)
  else if opcode = 0x35 then some (.mem .anda .zpx, 4)
  else if opcode = 0x2D then some (.mem .anda .abs, 4)
  else if opcode = 0x3D then some (.mem .anda .absx, 4)
  else if opcode = 0x39 then some (.mem .anda .absy, 4)
  else if opcode = 0x21 then some (.mem .anda .indx, 6)
  else if opcode = 0x31 then some (.mem .anda .indy, 5)
  else if opcode = 0x09 then some (.mem .ora .imm, 2)
  else if opcode = 0x05 then some (.mem .ora .zp, 3)
  else if opcode = 0x15 then some (.mem .ora .zpx, 4)
  else if opcode = 0x0D then some (.mem .ora .abs, 4)
  else if opcode = 0x1D then some (.mem .ora .absx, 4)
  else if opcode = 0x19 then some (.mem .ora .absy, 4)
  else if opcode = 0x01 then some (.mem .ora .indx, 6)
  else if opcode = 0x11 then some (.mem .ora .indy, 5)
  else if opcode = 0x49 then some (.mem .eor .imm, 2)
  else if opcode = 0x45 then some (.mem .eor .zp, 3)
  else if opcode = 0x55 then some (.mem .eor .zpx, 4)
  else if opcode = 0x4D then some (.mem .eor .abs, 4)
  else if opcode = 0x5D then some (.mem .eor .absx, 4)
  else if opcode = 0x59 then some (.mem .eor .absy, 4)
  else if opcode = 0x41 then some (.mem .eor .indx, 6)
  else if opcode = 0x51 then some (.mem .eor .indy, 5)
  else if opcode = 0x69 then some (.mem .adc .imm, 2)
  else if opcode = 0x65 then some (.mem .adc .zp, 3)
  else if opcode = 0x75 then some (.mem .adc .zpx, 4)
  else if opcode = 0x6D then some (.mem .adc .abs, 4)
  else if opcode = 0x7D then some (.mem .adc .absx, 4)
  else if opcode = 0x79 then some (.mem .adc .absy, 4)
  else if opcode = 0x61 then some (.mem .adc .indx, 6)
  else if opcode = 0x71 then some (.mem .adc .indy, 5)
  else if opcode = 0xE9 then some (.mem .sbc .imm, 2)
  else if opcode = 0xE5 then some (.mem .sbc .zp, 3)
  else if opcode = 0xF5 then some (.mem .sbc .zpx, 4)
  else if opcode = 0xED then some (.mem .sbc .abs, 4)
  else if opcode = 0xFD then some (.mem .sbc .absx, 4)
  else if opcode = 0xF9 then some (.mem .sbc .absy, 4)
  else if opcode = 0xE1 then some (.mem .sbc .indx, 6)
  else if opcode = 0xF1 then some (.mem .sbc .indy, 5)
  else if opcode = 0xC9 then some (.mem .cmp .imm, 2)
  else if opcode = 0xC5 then some (.mem .cmp .zp, 3)
  else if opcode = 0xD5 then some (.mem .cmp .zpx, 4)
  else if opcode = 0xCD then some (.mem .cmp .abs, 4)
  else if opcode = 0xDD then some (.mem .cmp .absx, 4)
  else if opcode = 0xD9 then some (.mem .cmp .absy, 4)
  else if opcode = 0xC1 then some (.mem .cmp .indx, 6)
  else if opcode = 0xD1 then some (.mem .cmp .indy, 5)
  else if opcode = 0xE0 then some (.mem .cpx .imm, 2)
  else if opcode = 0xE4 then some (.mem .cpx .zp, 3)
  else if opcode = 0xEC then some (.mem .cpx .abs, 4)
  else if opcode = 0xC0 then some (.mem .cpy .imm, 2)
  else if opcode = 0xC4 then some (.mem .cpy .zp, 3)
  else if opcode = 0xCC then some (.mem .cpy .abs, 4)
  else if opcode = 0xE6 then some (.mem .inc .zp, 5)
  else if opcode = 0xF6 then some (.mem .inc .zpx, 6)
  else if opcode = 0xEE then some (.mem .inc .abs, 6)
  else if opcode = 0xFE then some (.mem .inc .absx, 7)
  else if opcode = 0xC6 then some (.mem .dec .zp, 5)
  else if opcode = 0xD6 then some (.mem .dec .zpx, 6)
  else if opcode = 0xCE then some (.mem .dec .abs, 6)
  else if opcode = 0xDE then some (.mem .dec .absx, 7)
  else if opcode = 0xE8 then some (.imp .inx, 2)
  else if opcode = 0xCA then some (.imp .dex, 2)
  else if opcode = 0xC8 then some (.imp .iny, 2)
  else if opcode = 0x88 then some (.imp .dey, 2)
  else if opcode = 0x0A then some (.acc .asl, 2)
  else if opcode = 0x06 then some (.mem .asl .zp, 5)
  else if opcode = 0x16 then some (.mem .asl .zpx, 6)
  else if opcode = 0x0E then some (.mem .asl .abs, 6)
  else if opcode = 0x1E then some (.mem .asl .absx, 7)
  else if opcode = 0x4A then some (.acc .lsr, 2)
  else if opcode = 0x46 then some (.mem .lsr .zp, 5)
  else if opcode = 0x56 then some (.mem .lsr .zpx, 6)
  else if opcode = 0x4E then some (.mem .lsr .abs, 6)
  else if opcode = 0x5E then some (.mem .lsr .absx, 7)
  else if opcode = 0x2A then some (.acc .rol, 2)
  else if opcode = 0x26 then some (.mem .rol .zp, 5)
  else if opcode = 0x36 then some (.mem .rol .zpx, 6)
  else if opcode = 0x2E then some (.mem .rol .abs, 6)
  else if opcode = 0x3E then some (.mem .rol .absx, 7)
  else if opcode = 0x6A then some (.acc .ror, 2)
  else if opcode = 0x66 then some (.mem .ror .zp, 5)
  else if opcode = 0x76 then some (.mem .ror .zpx, 6)
  else if opcode = 0x6E then some (.mem .ror .abs, 6)
  else if opcode = 0x7E then some (.mem .ror .absx, 7)
  else if opcode = 0x4C then some (.mem .jmp .abs, 3)
  else if opcode = 0x6C then some (.mem .jmp .ind, 5)
  else if opcode = 0x20 then some (.mem .jsr .abs, 6)
  else if opcode = 0x90 then some (.br 0x01 false, 2)
  else if opcode = 0xB0 then some (.br 0x01 true, 2)
  else if opcode = 0xF0 then some (.br 0x02 true, 2)
  else if opcode = 0xD0 then some (.br 0x02 false, 2)
  else if opcode = 0x30 then some (.br 0x80 true, 2)
  else if opcode = 0x10 then some (.br 0x80 false, 2)
  else if opcode = 0x50 then some (.br 0x40 false, 2)
  else if opcode = 0x70 then some (.br 0x40 true, 2)
  else if opcode = 0x18 then some (.imp .clc, 2)
  else if opcode = 0x38 then some (.imp .sec, 2)
  else if opcode = 0x58 then some (.imp .cli, 2)
  else if opcode = 0x78 then some (.imp .sei, 2)
  else if opcode = 0xB8 then some (.imp .clv, 2)
  else if opcode = 0xD8 then some (.imp .cld, 2)
  else if opcode = 0xF8 then some (.imp .sed, 2)
  else if opcode = 0x24 then some (.mem .bita .zp, 3)
  else if opcode = 0x2C then some (.mem .bita .abs, 4)
  else none

/-- `CPU.step` of the hdr revision: returns the cycles consumed and the
next machine state.  Illegal opcodes are executed as a 2-cycle no-op. -/
def step (n : NES) : Nat × NES :=
  if n.paused then (2, n)
  else if n.cpu.nmiPending then
    let n1 := doNmi n
    (7, { n1 with cpu := { n1.cpu with nmiPending := false } })
  else if n.cpu.irqPending ∧ getFlag n.cpu 0x04 = 0 then
    let n1 := doIrq n
    (7, { n1 with cpu := { n1.cpu with irqPending := false } })
  else
    let (opcode, n1) := nesRead n n.cpu.pc
    let n2 := { n1 with cpu :=
      { n1.cpu with pc := (n1.cpu.pc + 1) % 0x10000, extraCycles := 0 } }
    match opTable opcode with
    | none =>
        (2, { n2 with cpu := { n2.cpu with totalCycles := n2.cpu.totalCycles + 2 } })
    | some (e, base) =>
        let n3 := execEntry n2 e
        let cyc := base + n3.cpu.extraCycles
        (cyc, { n3 with cpu := { n3.cpu with totalCycles := n3.cpu.totalCycles + cyc } })

/-- One iteration of the loop body of `PPU.step` in the hdr revision: a
single PPU tick.  Advances (cycle, scanline), sets VBlank (and requests an
NMI when CTRL bit 7 is set) on reaching scanline 241 cycle 1, and clears
VBlank, sprite-0 hit and overflow on reaching scanline 261 cycle 1. -/
def ppuTick (n : NES) : NES :=
  let p0 := n.ppu
  let p1 := { p0 with cycle := p0.cycle + 1 }
  let p : PPUState :=
    if p1.cycle ≥ 341 then
      let p2 := { p1 with cycle := 0, scanline := p1.scanline + 1 }
      if p2.scanline ≥ 262 then { p2 with scanline := 0, frame := p2.frame + 1 }
      else p2
    else p1
  let n1 : NES := { n with ppu := p }
  let n2 : NES :=
    if p.scanline = 241 ∧ p.cycle = 1 then
      let cpu2 := if p.ctrl &&& 0x80 ≠ 0 then { n1.cpu with nmiPending := true } else n1.cpu
      { n1 with ppu := { p with status := p.status ||| 0x80 }, cpu := cpu2 }
    else n1
  if n2.ppu.scanline = 261 ∧ n2.ppu.cycle = 1 then
    { n2 with ppu := { n2.ppu with status := n2.ppu.status &&& 0x1F } }
  else n2

/-- `PPU.step(cycles)`: `cycles * 3` PPU ticks. -/
def ppuStep (n : NES) (cycles : Nat) : NES :=
  ppuTick^[cycles * 3] n

/-- The 64-entry RGB lookup table `PPU.rgb_palette` of the hdr revision,
each entry an (r, g, b) triple for the presenter. -/
def rgbPalette : List (Nat × Nat × Nat) :=
  [(84,84,84),(0,30,116),(8,16,144),(48,0,136),(68,0,100),(92,0,48),(84,4,0),(60,24,0),
   (32,42,0),(8,58,0),(0,64,0),(0,60,0),(0,50,60),(0,0,0),(0,0,0),(0,0,0),
   (152,150,152),(8,76,196),(48,50,236),(92,30,228),(136,20,176),(160,20,100),(152,34,32),(120,60,0),
   (84,90,0),(40,114,0),(8,124,0),(0,118,40),(0,102,120),(0,0,0),(0,0,0),(0,0,0),
   (236,238,236),(76,154,236),(120,124,236),(176,98,236),(228,84,236),(236,88,180),(236,106,100),(212,136,32),
   (160,170,0),(116,196,0),(76,208,32),(56,204,108),(56,180,204),(60,60,60),(0,0,0),(0,0,0),
   (236,238,236),(168,204,236),(188,188,236),(212,178,236),(236,174,236),(236,174,212),(236,180,176),(228,196,144),
   (204,210,120),(180,222,120),(168,226,144),(152,226,180),(160,214,228),(160,162,160),(0,0,0),(0,0,0)]

/-- `PPU.render_frame` of the hdr revision.  With no ROM loaded each
framebuffer byte is `random.randint(0, 0x3F)`, modelled by an arbitrary
oracle `rand : Nat → Nat` reduced into randint's documented range
`[0, 0x3F]`; with a ROM loaded a color-cycling test pattern of 6-bit
indices is written. -/
def renderFrame (rand : Nat → Nat) (romLoaded : Bool) (p : PPUState) : PPUState :=
  if romLoaded = false then
    let fb1 := (List.range (256 * 240)).foldl
      (fun fb i => fun j => if j = i then rand i % 0x40 else fb j) p.framebuffer
    { p with framebuffer := fb1 }
  else
    let baseColor := (p.frame / 2) % 0x40
    let writeRow := fun (fb : Nat → Nat) (y : Nat) =>
      (List.range 256).foldl
        (fun fb x =>
          let pattern := (x / 16 + y / 16) % 4
          let color := (baseColor + pattern) % 0x40
          fun j => if j = y * 256 + x then color else fb j)
        fb
    let fb1 := (List.range 240).foldl writeRow p.framebuffer
    { p with framebuffer := fb1 }

/-- Per-frame CPU cycle budget `target_cycles` of `NES.run_frame` in the
hdr revision. -/
def targetCycles : Nat := 29780

/-- The `while cycles < target_cycles` loop of `NES.run_frame`, with an
explicit fuel bound and ghost counters for the CPU cycles consumed and
the PPU ticks performed this frame. -/
def runFrameLoop : Nat → NES → Nat → Nat → NES × Nat × Nat
  | 0, n, cyclesAcc, ticksAcc => (n, cyclesAcc, ticksAcc)
  | fuel + 1, n, cyclesAcc, ticksAcc =>
      if cyclesAcc < targetCycles then
        let (c, n1) := step n
        runFrameLoop fuel (ppuStep n1 c) (cyclesAcc + c) (ticksAcc + c * 3)
      else (n, cyclesAcc, ticksAcc)

/-- `NES.run_frame` of the hdr revision: run the frame loop, render the
frame and bump the frame counter.  Returns the machine together with the
ghost (cycles consumed, PPU ticks) pair.  Every executed instruction
consumes at least 2 cycles, so fuel `targetCycles` always suffices. -/
def runFrame (rand : Nat → Nat) (n : NES) : NES × Nat × Nat :=
  let (n1, cyclesAcc, ticksAcc) := runFrameLoop targetCycles n 0 0
  let n2 := { n1 with ppu := renderFrame rand n1.romLoaded n1.ppu,
                      frameCount := n1.frameCount + 1 }
  (n2, cyclesAcc, ticksAcc)

/-- An all-zero power-on CPU state (registers as `CPU.__init__`). -/
def initCPU : CPUState :=
  { a := 0, x := 0, y := 0, sp := 0xFD, pc := 0, status := 0x24,
    cycles := 0, extraCycles := 0, totalCycles := 0,
    nmiPending := false, irqPending := false }

/-- An all-zero power-on PPU state (`PPU.__init__`). -/
def initPPU : PPUState :=
  { cycle := 0, scanline := 0, frame := 0,
    framebuffer := fun _ => 0, vram := fun _ => 0, oam := fun _ => 0,
    paletteRam := fun _ => 0, chrRom := fun _ => 0,
    ctrl := 0, mask := 0, status := 0, oamAddr := 0,
    scrollX := 0, scrollY := 0, vramAddr := 0, tempAddr := 0,
    fineX := 0, writeToggle := 0, readBuffer := 0 }

/-- An all-zero power-on machine state (`NES.__init__`). -/
def initNES : NES :=
  { cpu := initCPU, ppu := initPPU,
    wram := fun _ => 0, prgRom := fun _ => 0,
    controller1 := 0, controller2 := 0,
    controllerStrobe := 0, controllerShift := 0,
    frameCount := 0, paused := false, romLoaded := false }

end RevB

namespace RevA

/-- CPU register file of `class CPU` in the 0.1.1b revision. -/
structure CPUState where
  a : Nat
  x : Nat
  y : Nat
  sp : Nat
  pc : Nat
  status : Nat
  cycles : Nat
  extraCycles : Nat
  totalCycles : Nat
  nmiPending : Bool
  irqPending : Bool

/-- PPU state of `class PPU` in the 0.1.1b revision.  Note there is no
read-buffer field: `__slots__` does not declare one, and `read_data`'s
`self.buffer` access raises `AttributeError` (see `readData`). -/
structure PPUState where
  vram : Nat → Nat
  palette : Nat → Nat
  oam : Nat → Nat
  cycle : Nat
  scanline : Nat
  frame : Nat
  ctrl : Nat
  mask : Nat
  status : Nat
  oamAddr : Nat
  v : Nat
  t : Nat
  x : Nat
  w : Nat
  nmiOccurred : Bool
  frontBuffer : Nat → Nat
  backBuffer : Nat → Nat

/-- The loaded cartridge dict `{'prg': …, 'chr': …}` of the 0.1.1b
revision.  Lists, because the source indexes modulo their length and
tests `chr` for emptiness. -/
structure Rom where
  prg : List Nat
  chr : List Nat

/-- Whole-machine state of `class NES` in the 0.1.1b revision.  `paused`
models `sys_bus.paused`.  Before a ROM is loaded `self.rom` is `None` and
PRG reads raise; all states considered here carry a loaded `rom`, and
`nesRead` models the in-bounds indexing `prg[(addr - 0x8000) % len(prg)]`
(which raises in Python only when `prg` is empty; the theorems below only
use states with nonempty `prg`). -/
structure NES where
  cpu : CPUState
  ppu : PPUState
  wram : Nat → Nat
  rom : Rom
  mirroring : Nat
  frameCount : Nat
  paused : Bool

/-- `NES.chr_read`: CHR read, 0 when the cartridge has no CHR bytes. -/
def chrRead (n : NES) (addr : Nat) : Nat :=
  if n.rom.chr.isEmpty then 0
  else n.rom.chr.getD (addr % n.rom.chr.length) 0

/-- `NES.chr_write`: CHR write, ignored when the cartridge has no CHR
bytes. -/
def chrWrite (n : NES) (addr val : Nat) : NES :=
  if n.rom.chr.isEmpty then n
  else { n with rom := { n.rom with chr := n.rom.chr.set (addr % n.rom.chr.length) val } }

/-- `PPU.mirror_vram`: nametable mirroring into the low 2 KiB. -/
def mirrorVram (mirroring : Nat) (addr : Nat) : Nat :=
  let a := (addr - 0x2000) % 0x1000
  if mirroring = 0 then
    if a < 0x800 then a % 0x400 else a % 0x400 + 0x400
  else
    if a < 0x800 then a % 0x400 else a % 0x400

/-- `PPU.mirror_palette`: palette mirroring (`$3F10/14/18/1C` alias
`$3F00/04/08/0C`). -/
def mirrorPalette (addr : Nat) : Nat :=
  let a := (addr - 0x3F00) % 0x20
  if 16 ≤ a ∧ a % 4 = 0 then a - 16 else a

/-- `PPU.read`: PPU-space read (pattern tables / nametables / palette).
Pure: it has no side effects in the source. -/
def ppuRead (n : NES) (addr0 : Nat) : Nat :=
  let addr := addr0 % 0x4000
  if addr < 0x2000 then chrRead n addr
  else if addr < 0x3F00 then n.ppu.vram (mirrorVram n.mirroring addr)
  else if addr < 0x4000 then n.ppu.palette (mirrorPalette addr)
  else 0

/-- `PPU.write`: PPU-space write. -/
def ppuWrite (n : NES) (addr0 val0 : Nat) : NES :=
  let addr := addr0 % 0x4000
  let val := val0 % 0x100
  if addr < 0x2000 then chrWrite n addr val
  else if addr < 0x3F00 then
    let vram1 := fun j => if j = mirrorVram n.mirroring addr then val else n.ppu.vram j
    { n with ppu := { n.ppu with vram := vram1 } }
  else if addr < 0x4000 then
    let palette1 := fun j => if j = mirrorPalette addr then val else n.ppu.palette j
    { n with ppu := { n.ppu with palette := palette1 } }
  else n

/-- `PPU.read_data` of the 0.1.1b revision.  For `v < 0x3F00` the source
executes `res = self.buffer`, but `buffer` is not listed in the class's
`__slots__` and is never assigned, so that branch raises
`AttributeError` on every call — modelled by `none`.  For `v ≥ 0x3F00`
the palette byte is read (twice in the source) and `v` is incremented,
unmasked, by 32 or 1 according to CTRL bit 2. -/
def readData (n : NES) : Option (Nat × NES) :=
  if n.ppu.v < 0x3F00 then none
  else
    let res := ppuRead n n.ppu.v
    let inc := if n.ppu.ctrl &&& 4 ≠ 0 then 32 else 1
    some (res, { n with ppu := { n.ppu with v := n.ppu.v + inc } })

/-- `NES.read` of the 0.1.1b revision.  Pure: no bus read has a side
effect (addresses `$2000-$3FFF` are routed to `PPU.read(addr & 7)`, i.e.
to pattern-table bytes 0..7, not to the PPU register handlers).  The
source binds `addr &= 0xFFFF` once; here the masked address is written
out at each use. -/
def nesRead (n : NES) (addr0 : Nat) : Nat :=
  if addr0 % 0x10000 < 0x2000 then n.wram (addr0 % 0x10000 % 0x800)
  else if addr0 % 0x10000 < 0x4000 then ppuRead n (addr0 % 0x10000 % 8)
  else if addr0 % 0x10000 = 0x4016 then 0
  else if 0x8000 ≤ addr0 % 0x10000 then
    n.rom.prg.getD ((addr0 % 0x10000 - 0x8000) % n.rom.prg.length) 0
  else 0

/-- `NES.read16`. -/
def read16 (n : NES) (addr : Nat) : Nat :=
  nesRead n addr ||| (nesRead n (addr + 1) <<< 8)

/-- The body of the copy loop of `NES.dma_transfer` in the 0.1.1b
revision: `self.ppu.oam[i] = self.read(addr + i)` (the OAM address
register is not consulted). -/
def dmaStore (start : Nat) (m : NES) (i : Nat) : NES :=
  let oam1 := fun j => if j = i then nesRead m (start + i) else m.ppu.oam j
  { m with ppu := { m.ppu with oam := oam1 } }

/-- `NES.dma_transfer`: copy 256 bytes from `page << 8` into OAM indices
0..255 and add 513 to the CPU's `cycles` counter (not to
`total_cycles`). -/
def dmaTransfer (n : NES) (page : Nat) : NES :=
  let n1 := (List.range 256).foldl (dmaStore (page <<< 8)) n
  { n1 with cpu := { n1.cpu with cycles := n1.cpu.cycles + 513 } }

/-- `NES.write` of the 0.1.1b revision.  `$2000-$3FFF` is routed to
`PPU.write(addr & 7, val)` (a pattern-table write), `$4014` triggers DMA,
`$4016` is an explicit no-op. -/
def nesWrite (n : NES) (addr0 val0 : Nat) : NES :=
  if addr0 % 0x10000 < 0x2000 then
    { n with wram := fun j => if j = addr0 % 0x10000 % 0x800 then val0 % 0x100 else n.wram j }
  else if addr0 % 0x10000 < 0x4000 then ppuWrite n (addr0 % 0x10000 % 8) (val0 % 0x100)
  else if addr0 % 0x10000 = 0x4014 then dmaTransfer n (val0 % 0x100)
  else if addr0 % 0x10000 = 0x4016 then n
  else n

/-- `CPU.get_flag` (returns a truthiness value, embedded as 1/0). -/
def getFlag (c : CPUState) (mask : Nat) : Nat :=
  if c.status &&& mask ≠ 0 then 1 else 0

/-- `CPU.set_flag`, as in the hdr revision. -/
def setFlag (c : CPUState) (mask : Nat) (b : Bool) : CPUState :=
  if b then { c with status := c.status ||| mask }
  else { c with status := c.status &&& (0xFF ^^^ mask) }

/-- `CPU.set_zn`. -/
def setZN (c : CPUState) (val : Nat) : CPUState :=
  setFlag (setFlag c 0x02 (val = 0)) 0x80 (val &&& 0x80 ≠ 0)

/-- `CPU.push`. -/
def push (n : NES) (val : Nat) : NES :=
  let n1 := nesWrite n (0x100 + n.cpu.sp) (val % 0x100)
  { n1 with cpu := { n1.cpu with sp := (n1.cpu.sp + 0xFF) % 0x100 } }

/-- `CPU.pop`. -/
def pop (n : NES) : Nat × NES :=
  let n1 := { n with cpu := { n.cpu with sp := (n.cpu.sp + 1) % 0x100 } }
  (nesRead n1 (0x100 + n1.cpu.sp), n1)

/-- `CPU.push16`. -/
def push16 (n : NES) (val : Nat) : NES :=
  push (push n (val >>> 8)) (val % 0x100)

/-- `CPU.pop16`. -/
def pop16 (n : NES) : Nat × NES :=
  let (lo, n1) := pop n
  let (hi, n2) := pop n1
  ((hi <<< 8) ||| lo, n2)

/-- `CPU.nmi`: note it overwrites `cycles` with 7 and does not touch
`total_cycles`. -/
def doNmi (n : NES) : NES :=
  let n1 := push16 n n.cpu.pc
  let n2 := push n1 (n1.cpu.status &&& 0xEF)
  let n3 := { n2 with cpu := setFlag n2.cpu 0x04 true }
  { n3 with cpu := { n3.cpu with pc := read16 n3 0xFFFA, cycles := 7 } }

/-- `CPU.irq` (guarded on the I flag). -/
def doIrq (n : NES) : NES :=
  if getFlag n.cpu 0x04 = 0 then
    let n1 := push16 n n.cpu.pc
    let n2 := push n1 (n1.cpu.status &&& 0xEF)
    let n3 := { n2 with cpu := setFlag n2.cpu 0x04 true }
    { n3 with cpu := { n3.cpu with pc := read16 n3 0xFFFE, cycles := 7 } }
  else n

/-- Addressing modes of the 0.1.1b revision. -/
inductive Mode
  | imm | zpg | zpgx | zpgy | abs | absx | absy | ind | indx | indy

/-- Address-taking instructions of the 0.1.1b revision; the eight branch
instructions take their (absolute, per this revision's table) address as
an operand. -/
inductive MemOp
  | lda | ldx | ldy | sta | stx | sty
  | anda | ora | eor | bita
  | adc | sbc | cmp | cpx | cpy
  | inc | dec
  | asl | lsr | rol | ror
  | jmp | jsr
  | bcc | bcs | beq | bne | bmi | bpl | bvc | bvs

/-- Instructions dispatched with `None` as address and ignoring it. -/
inductive ImpOp
  | tax | tay | txa | tya | tsx | txs
  | pha | php | pla | plp
  | inx | dex | iny | dey
  | clc | sec | cli | sei | clv | cld | sed
  | nop | brk | rti | rts

/-- A dispatch-table entry of the 0.1.1b revision. -/
inductive Entry
  | mem (op : MemOp) (m : Mode)
  | acc (op : MemOp)
  | imp (op : ImpOp)

/-- Resolve an addressing mode, as written in the source.  In `imm`,
`zpgx` and `zpgy`, the statements after `return` (`self.pc += 1`) are
unreachable dead code, so the PC is not advanced by those modes. -/
def resolveMode (n : NES) (m : Mode) : Nat × NES :=
  match m with
  | .imm => (n.cpu.pc, n)
  | .zpg =>
      (nesRead n n.cpu.pc, { n with cpu := { n.cpu with pc := n.cpu.pc + 1 } })
  | .zpgx => ((nesRead n n.cpu.pc + n.cpu.x) % 0x100, n)
  | .zpgy => ((nesRead n n.cpu.pc + n.cpu.y) % 0x100, n)
  | .abs =>
      (read16 n n.cpu.pc, { n with cpu := { n.cpu with pc := n.cpu.pc + 2 } })
  | .absx =>
      let addr := read16 n n.cpu.pc
      let n1 := { n with cpu := { n.cpu with pc := n.cpu.pc + 2 } }
      let n2 :=
        if addr &&& 0xFF00 ≠ (addr + n1.cpu.x) &&& 0xFF00 then
          { n1 with cpu := { n1.cpu with extraCycles := 1 } }
        else n1
      (addr + n2.cpu.x, n2)
  | .absy =>
      let addr := read16 n n.cpu.pc
      let n1 := { n with cpu := { n.cpu with pc := n.cpu.pc + 2 } }
      let n2 :=
        if addr &&& 0xFF00 ≠ (addr + n1.cpu.y) &&& 0xFF00 then
          { n1 with cpu := { n1.cpu with extraCycles := 1 } }
        else n1
      (addr + n2.cpu.y, n2)
  | .ind =>
      let addr := read16 n n.cpu.pc
      let n1 := { n with cpu := { n.cpu with pc := n.cpu.pc + 2 } }
      if addr % 0x100 = 0xFF then
        ((nesRead n1 (addr &&& 0xFF00) <<< 8) ||| nesRead n1 addr, n1)
      else (read16 n1 addr, n1)
  | .indx =>
      let base := nesRead n n.cpu.pc
      let n1 := { n with cpu := { n.cpu with pc := n.cpu.pc + 1 } }
      let addr := (base + n1.cpu.x) % 0x100
      (nesRead n1 addr ||| (nesRead n1 ((addr + 1) % 0x100) <<< 8), n1)
  | .indy =>
      let base := nesRead n n.cpu.pc
      let n1 := { n with cpu := { n.cpu with pc := n.cpu.pc + 1 } }
      let addr := nesRead n1 base ||| (nesRead n1 ((base + 1) % 0x100) <<< 8)
      let n2 :=
        if addr &&& 0xFF00 ≠ (addr + n1.cpu.y) &&& 0xFF00 then
          { n1 with cpu := { n1.cpu with extraCycles := 1 } }
        else n1
      (addr + n2.cpu.y, n2)

/-- The shared body of the eight branch instructions of the 0.1.1b
revision: when taken, jump to the resolved (absolute) address and add one
cycle to the `cycles` counter. -/
def doBranch (n : NES) (addr : Nat) (taken : Bool) : NES :=
  if taken then
    { n with cpu := { n.cpu with pc := addr, cycles := n.cpu.cycles + 1 } }
  else n

/-- Execute an address-taking instruction of the 0.1.1b revision
(`CPU.ADC` … `CPU.TYA`); `addr? = none` is the accumulator form of the
shifts. -/
def execMemOp (n : NES) (op : MemOp) (addr? : Option Nat) : NES :=
  match op with
  | .lda =>
      let v := nesRead n (addr?.getD 0)
      { n with cpu := setZN { n.cpu with a := v } v }
  | .ldx =>
      let v := nesRead n (addr?.getD 0)
      { n with cpu := setZN { n.cpu with x := v } v }
  | .ldy =>
      let v := nesRead n (addr?.getD 0)
      { n with cpu := setZN { n.cpu with y := v } v }
  | .sta => nesWrite n (addr?.getD 0) n.cpu.a
  | .stx => nesWrite n (addr?.getD 0) n.cpu.x
  | .sty => nesWrite n (addr?.getD 0) n.cpu.y
  | .anda =>
      let a := n.cpu.a &&& nesRead n (addr?.getD 0)
      { n with cpu := setZN { n.cpu with a := a } a }
  | .ora =>
      let a := n.cpu.a ||| nesRead n (addr?.getD 0)
      { n with cpu := setZN { n.cpu with a := a } a }
  | .eor =>
      let a := n.cpu.a ^^^ nesRead n (addr?.getD 0)
      { n with cpu := setZN { n.cpu with a := a } a }
  | .bita =>
      let v := nesRead n (addr?.getD 0)
      let c1 := setFlag n.cpu 0x80 (v &&& 0x80 ≠ 0)
      let c2 := setFlag c1 0x40 (v &&& 0x40 ≠ 0)
      { n with cpu := setFlag c2 0x02 (c2.a &&& v = 0) }
  | .adc =>
      let v := nesRead n (addr?.getD 0)
      let carry := getFlag n.cpu 0x01
      let res := n.cpu.a + v + carry
      let c1 := setFlag n.cpu 0x01 (res > 0xFF)
      let c2 := setFlag c1 0x40
        ((c1.a ^^^ v) &&& 0x80 = 0 ∧ (c1.a ^^^ res) &&& 0x80 ≠ 0)
      let a := res % 0x100
      { n with cpu := setZN { c2 with a := a } a }
  | .sbc =>
      let v := nesRead n (addr?.getD 0) ^^^ 0xFF
      let carry := getFlag n.cpu 0x01
      let res := n.cpu.a + v + carry
      let c1 := setFlag n.cpu 0x01 (res > 0xFF)
      let c2 := setFlag c1 0x40
        ((c1.a ^^^ v) &&& 0x80 = 0 ∧ (c1.a ^^^ res) &&& 0x80 ≠ 0)
      let a := res % 0x100
      { n with cpu := setZN { c2 with a := a } a }
  | .cmp =>
      let v := nesRead n (addr?.getD 0)
      let res : Int := (n.cpu.a : Int) - v
      let c1 := setFlag n.cpu 0x01 (res ≥ 0)
      { n with cpu := setZN c1 (res.emod 0x100).toNat }
  | .cpx =>
      let v := nesRead n (addr?.getD 0)
      let res : Int := (n.cpu.x : Int) - v
      let c1 := setFlag n.cpu 0x01 (res ≥ 0)
      { n with cpu := setZN c1 (res.emod 0x100).toNat }
  | .cpy =>
      let v := nesRead n (addr?.getD 0)
      let res : Int := (n.cpu.y : Int) - v
      let c1 := setFlag n.cpu 0x01 (res ≥ 0)
      { n with cpu := setZN c1 (res.emod 0x100).toNat }
  | .inc =>
      let v := (nesRead n (addr?.getD 0) + 1) % 0x100
      let n1 := nesWrite n (addr?.getD 0) v
      { n1 with cpu := setZN n1.cpu v }
  | .dec =>
      let v := ((((nesRead n (addr?.getD 0)) : Int) - 1).emod 0x100).toNat
      let n1 := nesWrite n (addr?.getD 0) v
      { n1 with cpu := setZN n1.cpu v }
  | .asl =>
      match addr? with
      | none =>
          let c1 := setFlag n.cpu 0x01 (n.cpu.a &&& 0x80 ≠ 0)
          let a := (c1.a <<< 1) % 0x100
          { n with cpu := setZN { c1 with a := a } a }
      | some addr =>
          let v0 := nesRead n addr
          let c1 := setFlag n.cpu 0x01 (v0 &&& 0x80 ≠ 0)
          let v := (v0 <<< 1) % 0x100
          let n1 := nesWrite { n with cpu := c1 } addr v
          { n1 with cpu := setZN n1.cpu v }
  | .lsr =>
      match addr? with
      | none =>
          let c1 := setFlag n.cpu 0x01 (n.cpu.a &&& 0x01 ≠ 0)
          let a := c1.a >>> 1
          { n with cpu := setZN { c1 with a := a } a }
      | some addr =>
          let v0 := nesRead n addr
          let c1 := setFlag n.cpu 0x01 (v0 &&& 0x01 ≠ 0)
          let v := v0 >>> 1
          let n1 := nesWrite { n with cpu := c1 } addr v
          { n1 with cpu := setZN n1.cpu v }
  | .rol =>
      match addr? with
      | none =>
          let carry := getFlag n.cpu 0x01
          let c1 := setFlag n.cpu 0x01 (n.cpu.a &&& 0x80 ≠ 0)
          let a := ((c1.a <<< 1) ||| carry) % 0x100
          { n with cpu := setZN { c1 with a := a } a }
      | some addr =>
          let v0 := nesRead n addr
          let carry := getFlag n.cpu 0x01
          let c1 := setFlag n.cpu 0x01 (v0 &&& 0x80 ≠ 0)
          let v := ((v0 <<< 1) ||| carry) % 0x100
          let n1 := nesWrite { n with cpu := c1 } addr v
          { n1 with cpu := setZN n1.cpu v }
  | .ror =>
      match addr? with
      | none =>
          let carry := getFlag n.cpu 0x01
          let c1 := setFlag n.cpu 0x01 (n.cpu.a &&& 0x01 ≠ 0)
          let a := (c1.a >>> 1) ||| (carry <<< 7)
          { n with cpu := setZN { c1 with a := a } a }
      | some addr =>
          let v0 := nesRead n addr
          let carry := getFlag n.cpu 0x01
          let c1 := setFlag n.cpu 0x01 (v0 &&& 0x01 ≠ 0)
          let v := (v0 >>> 1) ||| (carry <<< 7)
          let n1 := nesWrite { n with cpu := c1 } addr v
          { n1 with cpu := setZN n1.cpu v }
  | .jmp => { n with cpu := { n.cpu with pc := addr?.getD 0 } }
  | .jsr =>
      let n1 := push16 n (n.cpu.pc - 1)
      { n1 with cpu := { n1.cpu with pc := addr?.getD 0 } }
  | .bcc => doBranch n (addr?.getD 0) (getFlag n.cpu 0x01 = 0)
  | .bcs => doBranch n (addr?.getD 0) (getFlag n.cpu 0x01 ≠ 0)
  | .beq => doBranch n (addr?.getD 0) (getFlag n.cpu 0x02 ≠ 0)
  | .bne => doBranch n (addr?.getD 0) (getFlag n.cpu 0x02 = 0)
  | .bmi => doBranch n (addr?.getD 0) (getFlag n.cpu 0x80 ≠ 0)
  | .bpl => doBranch n (addr?.getD 0) (getFlag n.cpu 0x80 = 0)
  | .bvc => doBranch n (addr?.getD 0) (getFlag n.cpu 0x40 = 0)
  | .bvs => doBranch n (addr?.getD 0) (getFlag n.cpu 0x40 ≠ 0)

/-- Execute an implied instruction of the 0.1.1b revision. -/
def execImpOp (n : NES) (op : ImpOp) : NES :=
  match op with
  | .tax => { n with cpu := setZN { n.cpu with x := n.cpu.a } n.cpu.a }
  | .tay => { n with cpu := setZN { n.cpu with y := n.cpu.a } n.cpu.a }
  | .txa => { n with cpu := setZN { n.cpu with a := n.cpu.x } n.cpu.x }
  | .tya => { n with cpu := setZN { n.cpu with a := n.cpu.y } n.cpu.y }
  | .tsx => { n with cpu := setZN { n.cpu with x := n.cpu.sp } n.cpu.sp }
  | .txs => { n with cpu := { n.cpu with sp := n.cpu.x } }
  | .pha => push n n.cpu.a
  | .php => push n (n.cpu.status ||| 0x10)
  | .pla =>
      let (v, n1) := pop n
      { n1 with cpu := setZN { n1.cpu with a := v } v }
  | .plp =>
      let (v, n1) := pop n
      { n1 with cpu := { n1.cpu with status := (v &&& 0xEF) ||| 0x20 } }
  | .inx =>
      let x := (n.cpu.x + 1) % 0x100
      { n with cpu := setZN { n.cpu with x := x } x }
  | .dex =>
      let x := (((n.cpu.x : Int) - 1).emod 0x100).toNat
      { n with cpu := setZN { n.cpu with x := x } x }
  | .iny =>
      let y := (n.cpu.y + 1) % 0x100
      { n with cpu := setZN { n.cpu with y := y } y }
  | .dey =>
      let y := (((n.cpu.y : Int) - 1).emod 0x100).toNat
      { n with cpu := setZN { n.cpu with y := y } y }
  | .clc => { n with cpu := setFlag n.cpu 0x01 false }
  | .sec => { n with cpu := setFlag n.cpu 0x01 true }
  | .cli => { n with cpu := setFlag n.cpu 0x04 false }
  | .sei => { n with cpu := setFlag n.cpu 0x04 true }
  | .clv => { n with cpu := setFlag n.cpu 0x40 false }
  | .cld => { n with cpu := setFlag n.cpu 0x08 false }
  | .sed => { n with cpu := setFlag n.cpu 0x08 true }
  | .nop => n
  | .brk =>
      let n1 := push16 n (n.cpu.pc + 1)
      let n2 := push n1 (n1.cpu.status ||| 0x10)
      let n3 := { n2 with cpu := setFlag n2.cpu 0x04 true }
      { n3 with cpu := { n3.cpu with pc := read16 n3 0xFFFE } }
  | .rti =>
      let (v, n1) := pop n
      let n2 := { n1 with cpu := { n1.cpu with status := (v &&& 0xEF) ||| 0x20 } }
      let (p, n3) := pop16 n2
      { n3 with cpu := { n3.cpu with pc := p } }
  | .rts =>
      let (p, n1) := pop16 n
      { n1 with cpu := { n1.cpu with pc := p + 1 } }

/-- `CPU.build_instruction_set` of the 0.1.1b revision: note the eight
branch opcodes are registered with the two-byte `abs` addressing mode. -/
def opTable (opcode : Nat) : Option (Entry × Nat) :=
  if opcode = 0x69 then some (.mem .adc .imm, 2)
  else if opcode = 0x65 then some (.mem .adc .zpg, 3)
  else if opcode = 0x75 then some (.mem .adc .zpgx, 4)
  else if opcode = 0x6D then some (.mem .adc .abs, 4)
  else if opcode = 0x7D then some (.mem .adc .absx, 4)
  else if opcode = 0x79 then some (.mem .adc .absy, 4)
  else if opcode = 0x61 then some (.mem .adc .indx, 6)
  else if opcode = 0x71 then some (.mem .adc .indy, 5)
  else if opcode = 0x29 then some (.mem .anda .imm, 2)
  else if opcode = 0x25 then some (.mem .anda .zpg, 3)
  else if opcode = 0x35 then some (.mem .anda .zpgx, 4)
  else if opcode = 0x2D then some (.mem .anda .abs, 4)
  else if opcode = 0x3D then some (.mem .anda .absx, 4)
  else if opcode = 0x39 then some (.mem .anda .absy, 4)
  else if opcode = 0x21 then some (.mem .anda .indx, 6)
  else if opcode = 0x31 then some (.mem .anda .indy, 5)
  else if opcode = 0x0A then some (.acc .asl, 2)
  else if opcode = 0x06 then some (.mem .asl .zpg, 5)
  else if opcode = 0x16 then some (.mem .asl .zpgx, 6)
  else if opcode = 0x0E then some (.mem .asl .abs, 6)
  else if opcode = 0x1E then some (.mem .asl .absx, 7)
  else if opcode = 0x90 then some (.mem .bcc .abs, 2)
  else if opcode = 0xB0 then some (.mem .bcs .abs, 2)
  else if opcode = 0xF0 then some (.mem .beq .abs, 2)
  else if opcode = 0x24 then some (.mem .bita .zpg, 3)
  else if opcode = 0x2C then some (.mem .bita .abs, 4)
  else if opcode = 0x30 then some (.mem .bmi .abs, 2)
  else if opcode = 0xD0 then some (.mem .bne .abs, 2)
  else if opcode = 0x10 then some (.mem .bpl .abs, 2)
  else if opcode = 0x00 then some (.imp .brk, 7)
  else if opcode = 0x50 then some (.mem .bvc .abs, 2)
  else if opcode = 0x70 then some (.mem .bvs .abs, 2)
  else if opcode = 0x18 then some (.imp .clc, 2)
  else if opcode = 0xD8 then some (.imp .cld, 2)
  else if opcode = 0x58 then some (.imp .cli, 2)
  else if opcode = 0xB8 then some (.imp .clv, 2)
  else if opcode = 0xC9 then some (.mem .cmp .imm, 2)
  else if opcode = 0xC5 then some (.mem .cmp .zpg, 3)
  else if opcode = 0xD5 then some (.mem .cmp .zpgx, 4)
  else if opcode = 0xCD then some (.mem .cmp .abs, 4)
  else if opcode = 0xDD then some (.mem .cmp .absx, 4)
  else if opcode = 0xD9 then some (.mem .cmp .absy, 4)
  else if opcode = 0xC1 then some (.mem .cmp .indx, 6)
  else if opcode = 0xD1 then some (.mem .cmp .indy, 5)
  else if opcode = 0xE0 then some (.mem .cpx .imm, 2)
  else if opcode = 0xE4 then some (.mem .cpx .zpg, 3)
  else if opcode = 0xEC then some (.mem .cpx .abs, 4)
  else if opcode = 0xC0 then some (.mem .cpy .imm, 2)
  else if opcode = 0xC4 then some (.mem .cpy .zpg, 3)
  else if opcode = 0xCC then some (.mem .cpy .abs, 4)
  else if opcode = 0xC6 then some (.mem .dec .zpg, 5)
  else if opcode = 0xD6 then some (.mem .dec .zpgx, 6)
  else if opcode = 0xCE then some (.mem .dec .abs, 6)
  else if opcode = 0xDE then some (.mem .dec .absx, 7)
  else if opcode = 0xCA then some (.imp .dex, 2)
  else if opcode = 0x88 then some (.imp .dey, 2)
  else if opcode = 0x49 then some (.mem .eor .imm, 2)
  else if opcode = 0x45 then some (.mem .eor .zpg, 3)
  else if opcode = 0x55 then some (.mem .eor .zpgx, 4)
  else if opcode = 0x4D then some (.mem .eor .abs, 4)
  else if opcode = 0x5D then some (.mem .eor .absx, 4)
  else if opcode = 0x59 then some (.mem .eor .absy, 4)
  else if opcode = 0x41 then some (.mem .eor .indx, 6)
  else if opcode = 0x51 then some (.mem .eor .indy, 5)
  else if opcode = 0xE6 then some (.mem .inc .zpg, 5)
  else if opcode = 0xF6 then some (.mem .inc .zpgx, 6)
  else if opcode = 0xEE then some (.mem .inc .abs, 6)
  else if opcode = 0xFE then some (.mem .inc .absx, 7)
  else if opcode = 0xE8 then some (.imp .inx, 2)
  else if opcode = 0xC8 then some (.imp .iny, 2)
  else if opcode = 0x4C then some (.mem .jmp .abs, 3)
  else if opcode = 0x6C then some (.mem .jmp .ind, 5)
  else if opcode = 0x20 then some (.mem .jsr .abs, 6)
  else if opcode = 0xA9 then some (.mem .lda .imm, 2)
  else if opcode = 0xA5 then some (.mem .lda .zpg, 3)
  else if opcode = 0xB5 then some (.mem .lda .zpgx, 4)
  else if opcode = 0xAD then some (.mem .lda .abs, 4)
  else if opcode = 0xBD then some (.mem .lda .absx, 4)
  else if opcode = 0xB9 then some (.mem .lda .absy, 4)
  else if opcode = 0xA1 then some (.mem .lda .indx, 6)
  else if opcode = 0xB1 then some (.mem .lda .indy, 5)
  else if opcode = 0xA2 then some (.mem .ldx .imm, 2)
  else if opcode = 0xA6 then some (.mem .ldx .zpg, 3)
  else if opcode = 0xB6 then some (.mem .ldx .zpgy, 4)
  else if opcode = 0xAE then some (.mem .ldx .abs, 4)
  else if opcode = 0xBE then some (.mem .ldx .absy, 4)
  else if opcode = 0xA0 then some (.mem .ldy .imm, 2)
  else if opcode = 0xA4 then some (.mem .ldy .zpg, 3)
  else if opcode = 0xB4 then some (.mem .ldy .zpgx, 4)
  else if opcode = 0xAC then some (.mem .ldy .abs, 4)
  else if opcode = 0xBC then some (.mem .ldy .absx, 4)
  else if opcode = 0x4A then some (.acc .lsr, 2)
  else if opcode = 0x46 then some (.mem .lsr .zpg, 5)
  else if opcode = 0x56 then some (.mem .lsr .zpgx, 6)
  else if opcode = 0x4E then some (.mem .lsr .abs, 6)
  else if opcode = 0x5E then some (.mem .lsr .absx, 7)
  else if opcode = 0xEA then some (.imp .nop, 2)
  else if opcode = 0x09 then some (.mem .ora .imm, 2)
  else if opcode = 0x05 then some (.mem .ora .zpg, 3)
  else if opcode = 0x15 then some (.mem .ora .zpgx, 4)
  else if opcode = 0x0D then some (.mem .ora .abs, 4)
  else if opcode = 0x1D then some (.mem .ora .absx, 4)
  else if opcode = 0x19 then some (.mem .ora .absy, 4)
  else if opcode = 0x01 then some (.mem .ora .indx, 6)
  else if opcode = 0x11 then some (.mem .ora .indy, 5)
  else if opcode = 0x48 then some (.imp .pha, 3)
  else if opcode = 0x08 then some (.imp .php, 3)
  else if opcode = 0x68 then some (.imp .pla, 4)
  else if opcode = 0x28 then some (.imp .plp, 4)
  else if opcode = 0x2A then some (.acc .rol, 2)
  else if opcode = 0x26 then some (.mem .rol .zpg, 5)
  else if opcode = 0x36 then some (.mem .rol .zpgx, 6)
  else if opcode = 0x2E then some (.mem .rol .abs, 6)
  else if opcode = 0x3E then some (.mem .rol .absx, 7)
  else if opcode = 0x6A then some (.acc .ror, 2)
  else if opcode = 0x66 then some (.mem .ror .zpg, 5)
  else if opcode = 0x76 then some (.mem .ror .zpgx, 6)
  else if opcode = 0x6E then some (.mem .ror .abs, 6)
  else if opcode = 0x7E then some (.mem .ror .absx, 7)
  else if opcode = 0x40 then some (.imp .rti, 6)
  else if opcode = 0x60 then some (.imp .rts, 6)
  else if opcode = 0xE9 then some (.mem .sbc .imm, 2)
  else if opcode = 0xE5 then some (.mem .sbc .zpg, 3)
  else if opcode = 0xF5 then some (.mem .sbc .zpgx, 4)
  else if opcode = 0xED then some (.mem .sbc .abs, 4)
  else if opcode = 0xFD then some (.mem .sbc .absx, 4)
  else if opcode = 0xF9 then some (.mem .sbc .absy, 4)
  else if opcode = 0xE1 then some (.mem .sbc .indx, 6)
  else if opcode = 0xF1 then some (.mem .sbc .indy, 5)
  else if opcode = 0x38 then some (.imp .sec, 2)
  else if opcode = 0xF8 then some (.imp .sed, 2)
  else if opcode = 0x78 then some (.imp .sei, 2)
  else if opcode = 0x85 then some (.mem .sta .zpg, 3)
  else if opcode = 0x95 then some (.mem .sta .zpgx, 4)
  else if opcode = 0x8D then some (.mem .sta .abs, 4)
  else if opcode = 0x9D then some (.mem .sta .absx, 5)
  else if opcode = 0x99 then some (.mem .sta .absy, 5)
  else if opcode = 0x81 then some (.mem .sta .indx, 6)
  else if opcode = 0x91 then some (.mem .sta .indy, 6)
  else if opcode = 0x86 then some (.mem .stx .zpg, 3)
  else if opcode = 0x96 then some (.mem .stx .zpgy, 4)
  else if opcode = 0x8E then some (.mem .stx .abs, 4)
  else if opcode = 0x84 then some (.mem .sty .zpg, 3)
  else if opcode = 0x94 then some (.mem .sty .zpgx, 4)
  else if opcode = 0x8C then some (.mem .sty .abs, 4)
  else if opcode = 0xAA then some (.imp .tax, 2)
  else if opcode = 0xA8 then some (.imp .tay, 2)
  else if opcode = 0xBA then some (.imp .tsx, 2)
  else if opcode = 0x8A then some (.imp .txa, 2)
  else if opcode = 0x9A then some (.imp .txs, 2)
  else if opcode = 0x98 then some (.imp .tya, 2)
  else none

/-- `CPU.step` of the 0.1.1b revision.  For an opcode whose `op_table`
entry is `None`, the tuple unpacking `method, addr_mode =
self.op_table[opcode]` raises `TypeError`, modelled by `none`. -/
def step (n : NES) : Option NES :=
  if n.cpu.nmiPending then
    let n1 := doNmi n
    some { n1 with cpu := { n1.cpu with nmiPending := false } }
  else if n.cpu.irqPending ∧ getFlag n.cpu 0x04 = 0 then
    let n1 := doIrq n
    some { n1 with cpu := { n1.cpu with irqPending := false } }
  else
    let opcode := nesRead n n.cpu.pc
    let n1 := { n with cpu := { n.cpu with pc := n.cpu.pc + 1 } }
    match opTable opcode with
    | none => none
    | some (e, base) =>
        let n2 :=
          match e with
          | .mem op m =>
              let (addr, na) := resolveMode n1 m
              execMemOp na op (some addr)
          | .acc op => execMemOp n1 op none
          | .imp op => execImpOp n1 op
        let c := base + n2.cpu.extraCycles
        some { n2 with cpu := { n2.cpu with
          cycles := n2.cpu.cycles + c,
          totalCycles := n2.cpu.totalCycles + c,
          extraCycles := 0 } }

/-- The 64-entry `PPU.nes_palette` of the 0.1.1b revision: packed 24-bit
RGB values. -/
def nesPalette : List Nat :=
  [0x666666, 0x002A88, 0x1412A7, 0x3B00A4, 0x5C007E, 0x6E0040, 0x6C0600, 0x561D00,
   0x333500, 0x0B4800, 0x005200, 0x004F08, 0x00404D, 0x000000, 0x000000, 0x000000,
   0xADADAD, 0x155FD9, 0x4240FF, 0x7527FE, 0xA01ACC, 0xB71E7B, 0xB53120, 0x994E00,
   0x6B6D00, 0x388700, 0x0C9300, 0x008F32, 0x007C8D, 0x000000, 0x000000, 0x000000,
   0xFFFEFF, 0x64B0FF, 0x9290FF, 0xC676FF, 0xF36AFF, 0xFE6ECC, 0xFE8170, 0xEA9E22,
   0xBCBE00, 0x88D800, 0x5CE430, 0x45E082, 0x48CDDE, 0x4F4F4F, 0x000000, 0x000000,
   0xFFFEFF, 0xC0DFFF, 0xD3D2FF, 0xE8C8FF, 0xFBC2FF, 0xFEC4EA, 0xFECCC5, 0xF7D8A5,
   0xE4E594, 0xCFEF96, 0xBDF4AB, 0xB3F3CC, 0xB5EBF2, 0xB8B8B8, 0x000000, 0x000000]

/-- `PPU.render_background` of the 0.1.1b revision (returns the
background color index for the current pixel, 0 when background rendering
is disabled or the pattern bits are 0). -/
def renderBackground (n : NES) : Nat :=
  if n.ppu.mask &&& 0x08 = 0 then 0
  else
    let fineX := (n.ppu.v &&& 0x1F) >>> 12
    let fineY := (n.ppu.v >>> 2) &&& 0x07
    let tileX := (n.ppu.v >>> 5) &&& 0x1F
    let tileY := (n.ppu.v >>> 10) &&& 0x1F
    let nametable := (n.ppu.v >>> 8) &&& 0x03
    let attrAddr := 0x23C0 ||| (nametable <<< 10) ||| ((tileY / 4) <<< 3) ||| (tileX / 4)
    let attr := ppuRead n attrAddr
    let shift := ((tileY &&& 2) <<< 1) ||| (tileX &&& 2)
    let paletteSel := (attr >>> shift) &&& 3
    let tileAddr :=
      (if n.ppu.ctrl &&& 0x10 ≠ 0 then 0x1000 else 0x0000) +
        ppuRead n (0x2000 ||| (nametable <<< 10) ||| (tileY <<< 5) ||| tileX) * 16
    let plane0 := ppuRead n (tileAddr + fineY)
    let plane1 := ppuRead n (tileAddr + fineY + 8)
    let bit := 7 - fineX
    let color := (((plane1 >>> bit) &&& 1) <<< 1) ||| ((plane0 >>> bit) &&& 1)
    if color ≠ 0 then (paletteSel <<< 2) ||| color else 0

/-- The `for i in range(64)` sprite scan of `PPU.render_sprites`:
`remaining` is the number of OAM entries left to scan, `i` the current
index, `count` the number of sprites matched so far.  Returns the sprite
color, the priority bit and the machine (whose status gains the overflow
bit when a ninth sprite matches). -/
def renderSpritesAux : Nat → Nat → Nat → NES → Nat × Bool × NES
  | 0, _, _, n => (0, false, n)
  | remaining + 1, i, count, n =>
      let yPos := n.ppu.oam (i * 4)
      if yPos > 239 then renderSpritesAux remaining (i + 1) count n
      else
        let tileIdx0 := n.ppu.oam (i * 4 + 1)
        let attr := n.ppu.oam (i * 4 + 2)
        let xPos := n.ppu.oam (i * 4 + 3)
        let px : Int := (n.ppu.cycle : Int) - 1
        if ¬((xPos : Int) ≤ px ∧ px < (xPos : Int) + 8) then
          renderSpritesAux remaining (i + 1) count n
        else
          let count1 := count + 1
          if count1 > 8 then
            (0, false, { n with ppu := { n.ppu with status := n.ppu.status ||| 0x20 } })
          else
            let spriteHeight : Nat := if n.ppu.ctrl &&& 0x20 ≠ 0 then 16 else 8
            let relX0 := (px - (xPos : Int)).toNat
            let relY0 := (((n.ppu.scanline : Int) - yPos - 1).emod (spriteHeight : Int)).toNat
            let relX := if attr &&& 0x40 ≠ 0 then 7 - relX0 else relX0
            let relY := if attr &&& 0x80 ≠ 0 then spriteHeight - 1 - relY0 else relY0
            let bank :=
              if spriteHeight = 16 then (tileIdx0 &&& 1) * 0x1000
              else if n.ppu.ctrl &&& 0x08 ≠ 0 then 0x1000 else 0x0000
            let tileIdx :=
              if spriteHeight = 16 then (tileIdx0 &&& 0xFE) ||| (relY &&& 0x08)
              else tileIdx0
            let tileAddr := bank + tileIdx * 16 + (relY &&& 0x07)
            let plane0 := ppuRead n tileAddr
            let plane1 := ppuRead n (tileAddr + 8)
            let bit := 7 - relX
            let color := (((plane1 >>> bit) &&& 1) <<< 1) ||| ((plane0 >>> bit) &&& 1)
            if color = 0 then renderSpritesAux remaining (i + 1) count1 n
            else (0x10 + ((attr &&& 3) <<< 2) + color, attr &&& 0x20 ≠ 0, n)

/-- `PPU.render_sprites` of the 0.1.1b revision. -/
def renderSprites (n : NES) : Nat × Bool × NES :=
  if n.ppu.mask &&& 0x10 = 0 then (0, false, n)
  else renderSpritesAux 64 0 0 n

/-- `PPU.render_pixel` of the 0.1.1b revision: combine background and
sprite colors and store `nes_palette[palette_index]` — a packed 24-bit
RGB value — into the back buffer. -/
def renderPixel (n : NES) : NES :=
  let px : Int := (n.ppu.cycle : Int) - 1
  let y := n.ppu.scanline
  if px < 0 ∨ 256 ≤ px ∨ 240 ≤ y then n
  else
    let x := px.toNat
    let bgColor := renderBackground n
    let (spriteColor, spritePriority, n1) := renderSprites n
    let color :=
      if n1.ppu.mask &&& 0x08 ≠ 0 ∧ n1.ppu.mask &&& 0x10 ≠ 0 then
        if spriteColor ≠ 0 ∧ (spritePriority = false ∨ bgColor = 0) then spriteColor
        else bgColor
      else if n1.ppu.mask &&& 0x08 ≠ 0 then bgColor
      else if n1.ppu.mask &&& 0x10 ≠ 0 then spriteColor
      else 0
    let paletteIdx := ppuRead n1 (0x3F00 + color) % 0x40
    let bb1 := fun j => if j = y * 256 + x then nesPalette.getD paletteIdx 0 else n1.ppu.backBuffer j
    { n1 with ppu := { n1.ppu with backBuffer := bb1 } }

/-- `PPU.tick` of the 0.1.1b revision: render the current dot when
visible, set VBlank (and possibly NMI) when processing scanline 241 cycle
1, then advance (cycle, scanline) and swap buffers on frame wrap.  No
tick ever clears the VBlank, sprite-0 or overflow status bits. -/
def ppuTick (n : NES) : NES :=
  let n1 : NES :=
    if n.ppu.scanline < 240 then
      if n.ppu.cycle < 256 then renderPixel n else n
    else if n.ppu.scanline = 241 ∧ n.ppu.cycle = 1 then
      if n.ppu.ctrl &&& 0x80 ≠ 0 then
        { n with ppu := { n.ppu with status := n.ppu.status ||| 0x80, nmiOccurred := true },
                 cpu := { n.cpu with nmiPending := true } }
      else
        { n with ppu := { n.ppu with status := n.ppu.status ||| 0x80 } }
    else n
  let p1 : PPUState := { n1.ppu with cycle := n1.ppu.cycle + 1 }
  let p : PPUState :=
    if p1.cycle ≥ 341 then
      let p2 := { p1 with cycle := 0, scanline := p1.scanline + 1 }
      if p2.scanline ≥ 262 then
        { p2 with scanline := 0, frame := p2.frame + 1,
                  frontBuffer := p2.backBuffer, backBuffer := p2.frontBuffer }
      else p2
    else p1
  { n1 with ppu := p }

/-- Per-frame CPU cycle target `target_cycles` of `NES.run_frame` in the
0.1.1b revision. -/
def targetCycles : Nat := 29781

/-- The `while self.cpu.total_cycles < target_cycles` loop of
`NES.run_frame` in the 0.1.1b revision, with fuel and ghost counters for
the PPU ticks performed and the CPU cycles consumed (the growth of
`total_cycles`).  Each iteration runs one CPU step (skipped while paused)
and exactly three PPU ticks.  `none` models a crashed step or exhausted
fuel. -/
def runFrameLoop : Nat → NES → Nat → Nat → Option (NES × Nat × Nat)
  | 0, _, _, _ => none
  | fuel + 1, n, ticksAcc, consumedAcc =>
      if n.cpu.totalCycles < targetCycles then
        match (if n.paused then some n else step n) with
        | none => none
        | some n1 =>
            let consumed1 := consumedAcc + (n1.cpu.totalCycles - n.cpu.totalCycles)
            runFrameLoop fuel (ppuTick (ppuTick (ppuTick n1))) (ticksAcc + 3) consumed1
      else some (n, ticksAcc, consumedAcc)

/-- `NES.run_frame` of the 0.1.1b revision: run the loop, then subtract
the target from `total_cycles` and bump the frame counter.  Returns the
machine with the ghost (PPU ticks, CPU cycles consumed) pair. -/
def runFrame (n : NES) : Option (NES × Nat × Nat) :=
  match runFrameLoop (targetCycles + 1) n 0 0 with
  | none => none
  | some (n1, ticks, consumed) =>
      some ({ n1 with cpu := { n1.cpu with totalCycles := n1.cpu.totalCycles - targetCycles },
                      frameCount := n1.frameCount + 1 },
            ticks, consumed)

/-- An all-zero power-on CPU state (`CPU.__init__`). -/
def initCPU : CPUState :=
  { a := 0, x := 0, y := 0, sp := 0xFD, pc := 0, status := 0x24,
    cycles := 0, extraCycles := 0, totalCycles := 0,
    nmiPending := false, irqPending := false }

/-- An all-zero power-on PPU state (`PPU.__init__`). -/
def initPPU : PPUState :=
  { vram := fun _ => 0, palette := fun _ => 0, oam := fun _ => 0,
    cycle := 0, scanline := 0, frame := 0,
    ctrl := 0, mask := 0, status := 0, oamAddr := 0,
    v := 0, t := 0, x := 0, w := 0, nmiOccurred := false,
    frontBuffer := fun _ => 0, backBuffer := fun _ => 0 }

/-- A power-on machine state with a given cartridge. -/
def initNES (rom : Rom) : NES :=
  { cpu := initCPU, ppu := initPPU, wram := fun _ => 0,
    rom := rom, mirroring := 0, frameCount := 0, paused := false }

end RevA

namespace RevC

/-- The fields of `class FCEUX_Core` in the 1.0 revision touched by the
ROM loader and the controller port (mirroring: 0 horizontal, 1 vertical,
2 four-screen; mapperType: 0 UNIF, 1 iNES). -/
structure Core where
  ram : Nat → Nat
  romData : Option (List Nat)
  mapperType : Nat
  mirroring : Nat
  controller1 : Nat
  controller2 : Nat
  controllerLatch : Nat

/-- `FCEUX_Core.read_controller`: returns bit `controller_latch` of the
selected controller mask; the latch is not advanced by reads. -/
def readController (c : Core) (num : Nat) : Nat :=
  if num = 1 then (c.controller1 >>> c.controllerLatch) &&& 1
  else (c.controller2 >>> c.controllerLatch) &&& 1

/-- `FCEUX_Core.write_controller`: a write with bit 0 set resets the
latch to 0; a write with bit 0 clear advances the latch modulo 8. -/
def writeController (c : Core) (value : Nat) : Core :=
  if value &&& 1 ≠ 0 then { c with controllerLatch := 0 }
  else { c with controllerLatch := (c.controllerLatch + 1) % 8 }

end RevC

/-! ## Concrete machine states and statement helpers -/

/-- C2 counterexample: in revision 0.1.1b, executing the undefined opcode
`0x02` makes `step` raise (`op_table[0x02]` is `None` and the tuple
unpacking fails), contradicting the claim that `CPU.step()` completes for
every opcode byte. -/
def c2CexState : RevA.NES :=
  { RevA.initNES { prg := [0xEA], chr := [] } with
      wram := fun i => if i = 0 then 0x02 else 0 }

/-- C3 counterexample: in revision 0.1.1b the immediate addressing mode
reads `def imm(self): return self.pc; self.pc += 1` — the increment after
`return` is dead code — so executing `0xA9 0x42` from PC = 0 leaves
PC = 1, not PC = 2 as the claim requires. -/
def c3CexState : RevA.NES :=
  { RevA.initNES { prg := [0xEA], chr := [] } with
      wram := fun i => if i = 0 then 0xA9 else if i = 1 then 0x42 else 0 }

/-- C3 witness: the hdr-revision LDA-immediate property at a concrete
machine with `0xA9 0x42` at PC = 0. -/
def c3State : RevB.NES :=
  { RevB.initNES with wram := fun i => if i = 0 then 0xA9 else if i = 1 then 0x42 else 0 }

/-- The branch-target arithmetic of `CPU.branch` in the hdr revision: the
offset byte, sign-extended from 8 bits, is added to the address of the
next instruction (`pc + 2`, the branch instruction's end), modulo 2^16. -/
def branchTarget (pc offset : Nat) : Nat :=
  ((Int.ofNat (pc + 2) +
      (if offset &&& 0x80 ≠ 0 then (offset : Int) - 256 else (offset : Int))).emod 0x10000).toNat

/-- C4 example machine: `BEQ +4` (`0xF0 0x04`) at `PC = $00FE` with the Z
flag set (status `0x26`). -/
def c4State : RevB.NES :=
  { RevB.initNES with
      cpu := { RevB.initCPU with pc := 0x00FE, status := 0x26 },
      wram := fun i => if i = 0xFE then 0xF0 else if i = 0xFF then 0x04 else 0 }

/-- C5 counterexample machine (0.1.1b): CHR byte 7 is `0x55`; the PPU's
`v` is `$3F00` and palette entry 0 is `0x21`. -/
def c5CexState : RevA.NES :=
  let pal := fun i => if i = 0 then 0x21 else 0
  { RevA.initNES { prg := [0], chr := [0, 0, 0, 0, 0, 0, 0, 0x55] } with
      ppu := { RevA.initPPU with v := 0x3F00, palette := pal } }

/-- C6 counterexample machine (0.1.1b): the PPU sits at scanline 261
cycle 1 with VBlank, sprite-0 hit and overflow all set (status
`0xE0`). -/
def c6CexState : RevA.NES :=
  { RevA.initNES { prg := [0], chr := [] } with
      ppu := { RevA.initPPU with scanline := 261, cycle := 1, status := 0xE0 } }

/-- C6 witness machine (hdr): the PPU one tick before scanline 241
cycle 1, with NMI enabled (CTRL bit 7 set). -/
def c6State : RevB.NES :=
  { RevB.initNES with
      ppu := { RevB.initPPU with scanline := 241, cycle := 0, ctrl := 0x80 } }

/-- C7 counterexample machine (hdr): OAMADDR is 5, and work RAM holds
distinct bytes at 0 (value 7) and 5 (value 9). -/
def c7CexState : RevB.NES :=
  { RevB.initNES with
      ppu := { RevB.initPPU with oamAddr := 5 },
      wram := fun i => if i = 0 then 7 else if i = 5 then 9 else 0 }

/-- Repeated CPU reads of `$4016`: the list of the next `k` values
returned, threading the bus state. -/
def c8Reads : Nat → RevB.NES → List Nat
  | 0, _ => []
  | k + 1, n =>
      (RevB.nesRead n 0x4016).1 :: c8Reads k (RevB.nesRead n 0x4016).2

/-- C8 counterexample machine (hdr): the A button (bit 0) is held on
port 1. -/
def c8CexState : RevB.NES := { RevB.initNES with controller1 := 1 }

/-- C1 counterexample machine (0.1.1b): `total_cycles` one short of the
frame target, a NOP (`0xEA`) at PC = 0, so the frame loop runs exactly
one CPU step. -/
def c1CexState : RevA.NES :=
  { RevA.initNES { prg := [0xEA], chr := [] } with
      cpu := { RevA.initCPU with totalCycles := 29780 },
      wram := fun i => if i = 0 then 0xEA else 0 }

/-- C9 counterexample machine (0.1.1b): a visible dot (scanline 0,
cycle 1) about to be rendered with rendering disabled. -/
def c9CexState : RevA.NES :=
  { RevA.initNES { prg := [0xEA], chr := [] } with
      ppu := { RevA.initPPU with scanline := 0, cycle := 1 } }

/-- Bus reads below `$2000` hit work RAM and have no side effects (hdr
revision). -/
lemma revB_nesRead_low (n : RevB.NES) (a : Nat) (h : a < 0x2000) :
    RevB.nesRead n a = (n.wram (a % 0x800), n) := by
  unfold RevB.nesRead
  rw [Nat.mod_eq_of_lt (lt_trans h (by norm_num))]
  rw [if_pos h]

/-- Bus reads never change the CPU register file (hdr revision). -/
lemma revB_nesRead_cpu (n : RevB.NES) (a : Nat) :
    (RevB.nesRead n a).2.cpu = n.cpu := by
  unfold RevB.nesRead
  cases hx : RevB.ppuReadReg n.ppu (a % 0x10000) with
  | mk v p => split_ifs <;> rfl

/-- Bus reads never change work RAM (hdr revision). -/
lemma revB_nesRead_wram (n : RevB.NES) (a : Nat) :
    (RevB.nesRead n a).2.wram = n.wram := by
  unfold RevB.nesRead
  cases hx : RevB.ppuReadReg n.ppu (a % 0x10000) with
  | mk v p => split_ifs <;> rfl

/-- Bus reads of the reserved/unmapped ranges `$4018-$401F` and
`$4020-$7FFF` return 0 and have no side effects (hdr revision). -/
lemma revB_nesRead_unmapped (n : RevB.NES) (a : Nat)
    (h1 : 0x4017 < a) (h2 : a < 0x8000) :
    RevB.nesRead n a = (0, n) := by
  unfold RevB.nesRead
  rw [Nat.mod_eq_of_lt (lt_trans h2 (by norm_num))]
  rw [if_neg (by omega), if_neg (by omega)]
  split
  case _ => rw [if_neg (by omega)]
  case _ => rw [if_neg (by omega)]

/-- `CPU.step` of the hdr revision, characterized on a defined opcode:
fetch, advance PC, reset the extra-cycle counter, execute the table
entry, and charge base plus extra cycles. -/
lemma revB_step_entry (n : RevB.NES) (e : RevB.Entry) (base : Nat)
    (hp : n.paused = false)
    (hn : n.cpu.nmiPending = false)
    (hi : n.cpu.irqPending = false)
    (hop : RevB.opTable (RevB.nesRead n n.cpu.pc).1 = some (e, base)) :
    RevB.step n =
      (let n1 := (RevB.nesRead n n.cpu.pc).2
       let n2 : RevB.NES :=
         { n1 with cpu := { n1.cpu with pc := (n1.cpu.pc + 1) % 0x10000, extraCycles := 0 } }
       let n3 := RevB.execEntry n2 e
       (base + n3.cpu.extraCycles,
        { n3 with cpu :=
          { n3.cpu with totalCycles := n3.cpu.totalCycles + (base + n3.cpu.extraCycles) } })) := by
  unfold RevB.step
  rw [hp, hn, hi]
  rw [if_neg (by decide : ¬ ((false : Bool) = true))]
  rw [if_neg (by decide : ¬ ((false : Bool) = true))]
  rw [if_neg (by simp : ¬ ((false : Bool) = true ∧ RevB.getFlag n.cpu 0x04 = 0))]
  cases hfetch : RevB.nesRead n n.cpu.pc with
  | mk opcode n1 =>
    rw [hfetch] at hop
    simp only at hop
    simp only [hop]

/-- `CPU.branch` of the hdr revision when the condition is false: PC
skips the offset byte and no extra cycle is recorded. -/
lemma revB_branch_not_taken (n : RevB.NES) :
    RevB.branch n false = { n with cpu := { n.cpu with pc := n.cpu.pc + 1 } } := by
  unfold RevB.branch
  rw [if_neg (by decide : ¬ ((false : Bool) = true))]

/-- `CPU.branch` of the hdr revision when the condition is true and the
offset byte lies in work RAM: PC moves to the sign-extended target and
the extra cycles are 2 on a page change (relative to the instruction's
end) and 1 otherwise. -/
lemma revB_branch_taken (n : RevB.NES) (hpc : n.cpu.pc < 0x2000) :
    RevB.branch n true =
      { n with cpu := { n.cpu with
          pc := ((Int.ofNat (n.cpu.pc + 1) +
                   (if n.wram (n.cpu.pc % 0x800) &&& 0x80 ≠ 0 then
                      (n.wram (n.cpu.pc % 0x800) : Int) - 256
                    else (n.wram (n.cpu.pc % 0x800) : Int))).emod 0x10000).toNat,
          extraCycles :=
            if (n.cpu.pc + 1) &&& 0xFF00 ≠
               ((Int.ofNat (n.cpu.pc + 1) +
                   (if n.wram (n.cpu.pc % 0x800) &&& 0x80 ≠ 0 then
                      (n.wram (n.cpu.pc % 0x800) : Int) - 256
                    else (n.wram (n.cpu.pc % 0x800) : Int))).emod 0x10000).toNat &&& 0xFF00
            then 2 else 1 } } := by
  unfold RevB.branch
  rw [if_pos rfl]
  rw [revB_nesRead_low n n.cpu.pc hpc]


/-- In the 0.1.1b revision, a DMA OAM store does not change the result of
any bus read (bus reads never consult OAM). -/
lemma revA_nesRead_dmaStore (start : Nat) (m : RevA.NES) (i a : Nat) :
    RevA.nesRead (RevA.dmaStore start m i) a = RevA.nesRead m a := rfl

/-- A 0.1.1b DMA OAM store leaves the CPU untouched. -/
lemma revA_dmaStore_cpu (start : Nat) (m : RevA.NES) (i : Nat) :
    (RevA.dmaStore start m i).cpu = m.cpu := rfl

/-- The OAM contents after one 0.1.1b DMA store. -/
lemma revA_dmaStore_oam (start : Nat) (m : RevA.NES) (i j : Nat) :
    (RevA.dmaStore start m i).ppu.oam j =
      (if j = i then RevA.nesRead m (start + i) else m.ppu.oam j) := rfl

/-- A hdr-revision DMA store from a work-RAM source address is a pure OAM
update. -/
lemma revB_dmaStore_low (start : Nat) (m : RevB.NES) (i : Nat) (h : start + i < 0x2000) :
    RevB.dmaStore start m i =
      { m with ppu := { m.ppu with oam :=
          fun j => if j = i then m.wram ((start + i) % 0x800) else m.ppu.oam j } } := by
  unfold RevB.dmaStore
  rw [revB_nesRead_low m (start + i) h]

/-- The 0.1.1b DMA copy loop: OAM index j receives the bus byte at
start + j for every j in the index list, and the CPU is untouched. -/
lemma revA_dmaLoop_oam (start : Nat) :
    ∀ (l : List Nat) (m : RevA.NES) (j : Nat),
      ((l.foldl (RevA.dmaStore start) m).ppu.oam j =
        if j ∈ l then RevA.nesRead m (start + j) else m.ppu.oam j) ∧
      (l.foldl (RevA.dmaStore start) m).cpu = m.cpu := by
  intro l
  induction l with
  | nil => intro m j; simp
  | cons i l ih =>
    intro m j
    rw [List.foldl_cons]
    constructor
    · rw [(ih _ j).1]
      by_cases hj : j ∈ l
      · rw [if_pos hj, if_pos (List.mem_cons_of_mem _ hj), revA_nesRead_dmaStore]
      · rw [if_neg hj, revA_dmaStore_oam]
        by_cases hji : j = i
        · subst hji
          rw [if_pos rfl, if_pos (List.mem_cons_self _ _)]
        · rw [if_neg hji, if_neg (by simp [hji, hj])]
    · rw [(ih _ j).2, revA_dmaStore_cpu]

/-- The hdr-revision DMA copy loop over work-RAM source addresses: the
CPU and work RAM are untouched and OAM index j receives the RAM byte at
start + j. -/
lemma revB_dmaLoop (start : Nat) :
    ∀ (l : List Nat) (m : RevB.NES), (∀ i ∈ l, start + i < 0x2000) →
      (l.foldl (RevB.dmaStore start) m).cpu = m.cpu ∧
      (l.foldl (RevB.dmaStore start) m).wram = m.wram ∧
      (∀ j, (l.foldl (RevB.dmaStore start) m).ppu.oam j =
        if j ∈ l then m.wram ((start + j) % 0x800) else m.ppu.oam j) := by
  intro l
  induction l with
  | nil => intro m _; exact ⟨rfl, rfl, fun j => by simp⟩
  | cons i l ih =>
    intro m hl
    rw [List.foldl_cons, revB_dmaStore_low start m i (hl i (List.mem_cons_self _ _))]
    obtain ⟨ihc, ihw, iho⟩ := ih _ (fun x hx => hl x (List.mem_cons_of_mem _ hx))
    refine ⟨ihc, ihw, fun j => ?_⟩
    rw [iho j]
    by_cases hj : j ∈ l
    · rw [if_pos hj, if_pos (List.mem_cons_of_mem _ hj)]
    · rw [if_neg hj]
      by_cases hji : j = i
      · subst hji
        simp
      · rw [if_neg (by simp [hji, hj])]
        simp [hji]

/-- `render_frame` with no ROM loaded: the new framebuffer as a fold of
single-pixel writes of `rand i % 0x40`. -/
lemma revB_renderFrame_fb_norom (rand : Nat → Nat) (p : RevB.PPUState) :
    (RevB.renderFrame rand false p).framebuffer =
      (List.range (256 * 240)).foldl
        (fun fb i => fun j => if j = i then rand i % 0x40 else fb j) p.framebuffer := by
  unfold RevB.renderFrame
  rw [if_pos rfl]

/-- `render_frame` with a ROM loaded: the new framebuffer as a fold of
rows of single-pixel writes of 6-bit test-pattern indices. -/
lemma revB_renderFrame_fb_rom (rand : Nat → Nat) (p : RevB.PPUState) :
    (RevB.renderFrame rand true p).framebuffer =
      (List.range 240).foldl
        (fun fb y => (List.range 256).foldl
          (fun fb x => fun j =>
            if j = y * 256 + x then ((p.frame / 2) % 0x40 + (x / 16 + y / 16) % 4) % 0x40
            else fb j) fb)
        p.framebuffer := by
  unfold RevB.renderFrame
  rw [if_neg (by decide : ¬ (true = false))]

/-- A fold whose every step preserves "all framebuffer entries < 64"
preserves it overall. -/
lemma foldl_fb_preserve (l : List Nat) (F : (Nat → Nat) → Nat → (Nat → Nat))
    (hF : ∀ fb a, (∀ j, fb j < 64) → (∀ j, F fb a j < 64)) :
    ∀ fb, (∀ j, fb j < 64) → ∀ j, (l.foldl F fb) j < 64 := by
  induction l with
  | nil => intro fb h j; exact h j
  | cons a l ih =>
    intro fb h j
    rw [List.foldl_cons]
    exact ih (F fb a) (hF fb a h) j

/-- The hdr frame loop keeps the ghost tick counter at exactly three
times the ghost cycle counter. -/
lemma revB_runFrameLoop_ratio (fuel : Nat) :
    ∀ (n : RevB.NES) (cy t : Nat), t = 3 * cy →
      (RevB.runFrameLoop fuel n cy t).2.2 = 3 * (RevB.runFrameLoop fuel n cy t).2.1 := by
  induction fuel with
  | zero => intro n cy t ht; simpa [RevB.runFrameLoop] using ht
  | succ fuel ih =>
    intro n cy t ht
    rw [RevB.runFrameLoop]
    by_cases hc : cy < RevB.targetCycles
    · rw [if_pos hc]
      cases hs : RevB.step n with
      | mk c n1 =>
        exact ih (RevB.ppuStep n1 c) (cy + c) (t + c * 3) (by omega)
    · rw [if_neg hc]
      simpa using ht

/-- `run_frame`'s ghost pair is the frame loop's ghost pair. -/
lemma revB_runFrame_ghost (rand : Nat → Nat) (n : RevB.NES) :
    (RevB.runFrame rand n).2 = (RevB.runFrameLoop RevB.targetCycles n 0 0).2 := by
  rw [RevB.runFrame]

/-! ## C2: the CPU never aborts; undefined opcodes are 2-cycle NOPs -/


/-- C2 counterexample theorem: the 0.1.1b `step` crashes on opcode
`0x02`. -/
theorem c2_counterexample : RevA.step c2CexState = none := rfl

/-- C2 (amended, hdr revision): when no interrupt is pending and the
fetched opcode is absent from the dispatch table, `CPU.step()` completes,
charges exactly 2 cycles, advances PC by 1 (as a 2-cycle NOP would:
one fetch, no operand) and changes no register or RAM byte; and every bus
read of a reserved/unmapped address (`$4018-$7FFF`) returns 0. -/
theorem c2_undefined_opcode_hdr (n : RevB.NES)
    (hp : n.paused = false)
    (hn : n.cpu.nmiPending = false)
    (hi : n.cpu.irqPending = false)
    (hop : RevB.opTable (RevB.nesRead n n.cpu.pc).1 = none) :
    (RevB.step n).1 = 2 ∧
    (RevB.step n).2.cpu.a = n.cpu.a ∧
    (RevB.step n).2.cpu.x = n.cpu.x ∧
    (RevB.step n).2.cpu.y = n.cpu.y ∧
    (RevB.step n).2.cpu.sp = n.cpu.sp ∧
    (RevB.step n).2.cpu.status = n.cpu.status ∧
    (RevB.step n).2.cpu.pc = (n.cpu.pc + 1) % 0x10000 ∧
    (RevB.step n).2.cpu.totalCycles = n.cpu.totalCycles + 2 ∧
    (RevB.step n).2.wram = n.wram ∧
    (∀ a, 0x4017 < a → a < 0x8000 → RevB.nesRead n a = (0, n)) := by
  have hcpu := revB_nesRead_cpu n n.cpu.pc
  have hwram := revB_nesRead_wram n n.cpu.pc
  unfold RevB.step
  rw [hp, hn, hi]
  rw [if_neg (by decide : ¬ ((false : Bool) = true))]
  rw [if_neg (by decide : ¬ ((false : Bool) = true))]
  rw [if_neg (by simp : ¬ ((false : Bool) = true ∧ RevB.getFlag n.cpu 0x04 = 0))]
  cases hfetch : RevB.nesRead n n.cpu.pc with
  | mk opcode n1 =>
    rw [hfetch] at hop hcpu hwram
    simp only at hop hcpu hwram
    simp only [hop, hcpu, hwram]
    refine ⟨?_, ?_, ?_, ?_, ?_, ?_, ?_, ?_, ?_, ?_⟩ <;>
      first
        | exact fun a ha1 ha2 => revB_nesRead_unmapped n a ha1 ha2
        | trivial

/-- C2 witness: the hdr revision executes the undefined opcode `0x02` as
a 2-cycle NOP on a concrete machine. -/
theorem c2_witness :
    (RevB.step { RevB.initNES with wram := fun i => if i = 0 then 0x02 else 0 }).1 = 2 :=
  (c2_undefined_opcode_hdr
    { RevB.initNES with wram := fun i => if i = 0 then 0x02 else 0 }
    rfl rfl rfl rfl).1

/-! ## C3: LDA immediate -/


/-- C3 counterexample theorem: the 0.1.1b `step` on `LDA #$42` at PC = 0
loads A = 0x42 and charges 2 cycles but advances PC to 1, not 2. -/
theorem c3_counterexample :
    (RevA.step c3CexState).map (fun m => (m.cpu.a, m.cpu.pc, m.cpu.totalCycles))
        = some (0x42, 1, 2) ∧
    (1 : Nat) ≠ 0 + 2 :=
  ⟨rfl, by decide⟩

/-- C3 (amended, hdr revision): with PC pointing at the bytes
`0xA9 0x42` in work RAM and no interrupt pending, one `step` yields
A = 0x42 with the Z and N flags clear, charges 2 cycles, and advances PC
by exactly 2. -/
theorem c3_lda_immediate_hdr (n : RevB.NES)
    (hp : n.paused = false)
    (hn : n.cpu.nmiPending = false)
    (hi : n.cpu.irqPending = false)
    (hpc : n.cpu.pc + 1 < 0x2000)
    (h0 : n.wram (n.cpu.pc % 0x800) = 0xA9)
    (h1 : n.wram ((n.cpu.pc + 1) % 0x800) = 0x42) :
    (RevB.step n).1 = 2 ∧
    (RevB.step n).2.cpu.a = 0x42 ∧
    (RevB.step n).2.cpu.status &&& 0x02 = 0 ∧
    (RevB.step n).2.cpu.status &&& 0x80 = 0 ∧
    (RevB.step n).2.cpu.pc = n.cpu.pc + 2 := by
  have hpc0 : n.cpu.pc < 0x2000 := by omega
  have hm : (n.cpu.pc + 1) % 0x10000 = n.cpu.pc + 1 := Nat.mod_eq_of_lt (by omega)
  unfold RevB.step
  rw [hp, hn, hi]
  rw [if_neg (by decide : ¬ ((false : Bool) = true))]
  rw [if_neg (by decide : ¬ ((false : Bool) = true))]
  rw [if_neg (by simp : ¬ ((false : Bool) = true ∧ RevB.getFlag n.cpu 0x04 = 0))]
  rw [revB_nesRead_low n n.cpu.pc hpc0, h0]
  norm_num [RevB.opTable]
  simp only [RevB.execEntry, RevB.resolveMode, RevB.execMemOp, hm, Option.getD_some]
  rw [revB_nesRead_low _ (n.cpu.pc + 1) hpc]
  simp only [h1]
  simp only [RevB.setZN, RevB.setFlag]
  simp +decide [Nat.and_assoc]
  refine ⟨?_, ?_⟩
  case _ => rw [(by decide : (253 &&& (127 &&& 2) : Nat) = 0), Nat.and_zero]
  case _ => rw [(by decide : (253 &&& (127 &&& 128) : Nat) = 0), Nat.and_zero]


/-- C3 witness theorem. -/
theorem c3_witness :
    (RevB.step c3State).1 = 2 ∧ (RevB.step c3State).2.cpu.a = 0x42 ∧
    (RevB.step c3State).2.cpu.pc = c3State.cpu.pc + 2 :=
  have h := c3_lda_immediate_hdr c3State rfl rfl rfl (by decide) rfl rfl
  ⟨h.1, h.2.1, h.2.2.2.2⟩

/-! ## C4: branch instructions -/

/-- C4 counterexample: the claim's example "BEQ with offset +4 from
PC = $00FE with Z = 1 charges 4 cycles" is false on the hdr revision: the
page-cross comparison is made against the instruction's end ($0100),
which lies on the same page as the target $0104, so the branch charges
3 cycles (2 base + 1 taken).  (In revision 0.1.1b the claim fails even
more basically: its table registers the branch opcodes with the two-byte
absolute addressing mode, not a one-byte sign-extended offset.) -/
theorem c4_counterexample :
    (RevB.step c4State).1 = 3 ∧ (RevB.step c4State).2.cpu.pc = 0x0104 ∧ (3 : Nat) ≠ 4 :=
  ⟨rfl, rfl, by decide⟩

/-- C4 (amended, hdr revision): every branch instruction (BCC, BCS, BEQ,
BNE, BMI, BPL, BVC, BVS) takes a one-byte offset sign-extended from
8 bits; a not-taken branch charges 2 cycles and advances PC by 2; a taken
branch charges one extra cycle, and a further extra cycle when the target
is on a different page than the instruction's end (PC + 2).  In
particular BEQ +4 from $00FE with Z = 1 lands at $0104 and charges
3 cycles, not 4 (no page change from $0100 to $0104). -/
theorem c4_branches_hdr (n : RevB.NES) (mask : Nat) (ifSet : Bool)
    (hp : n.paused = false)
    (hn : n.cpu.nmiPending = false)
    (hi : n.cpu.irqPending = false)
    (hpc : n.cpu.pc + 1 < 0x2000)
    (hop : RevB.opTable (n.wram (n.cpu.pc % 0x800)) = some (.br mask ifSet, 2)) :
    ((if ifSet then n.cpu.status &&& mask = 0 else n.cpu.status &&& mask ≠ 0) →
       (RevB.step n).1 = 2 ∧ (RevB.step n).2.cpu.pc = n.cpu.pc + 2) ∧
    ((if ifSet then n.cpu.status &&& mask ≠ 0 else n.cpu.status &&& mask = 0) →
       (RevB.step n).2.cpu.pc = branchTarget n.cpu.pc (n.wram ((n.cpu.pc + 1) % 0x800)) ∧
       (RevB.step n).1 =
         (if (n.cpu.pc + 2) &&& 0xFF00 ≠
             branchTarget n.cpu.pc (n.wram ((n.cpu.pc + 1) % 0x800)) &&& 0xFF00
          then 4 else 3)) ∧
    (RevB.opTable 0x90 = some (.br 0x01 false, 2)) ∧
    (RevB.opTable 0xB0 = some (.br 0x01 true, 2)) ∧
    (RevB.opTable 0xF0 = some (.br 0x02 true, 2)) ∧
    (RevB.opTable 0xD0 = some (.br 0x02 false, 2)) ∧
    (RevB.opTable 0x30 = some (.br 0x80 true, 2)) ∧
    (RevB.opTable 0x10 = some (.br 0x80 false, 2)) ∧
    (RevB.opTable 0x50 = some (.br 0x40 false, 2)) ∧
    (RevB.opTable 0x70 = some (.br 0x40 true, 2)) := by
  have hpc0 : n.cpu.pc < 0x2000 := by omega
  have hm : (n.cpu.pc + 1) % 0x10000 = n.cpu.pc + 1 := Nat.mod_eq_of_lt (by omega)
  have hfetch := revB_nesRead_low n n.cpu.pc hpc0
  have hop' : RevB.opTable (RevB.nesRead n n.cpu.pc).1 = some (.br mask ifSet, 2) := by
    rw [hfetch]; exact hop
  have hkey := revB_step_entry n _ 2 hp hn hi hop'
  rw [hfetch] at hkey
  refine ⟨?_, ?_, rfl, rfl, rfl, rfl, rfl, rfl, rfl, rfl⟩
  · intro hc
    cases ifSet with
    | false =>
      have hcond : decide (n.cpu.status &&& mask = 0) = false := decide_eq_false hc
      simp only [RevB.execEntry, hcond, Bool.false_eq_true, if_false] at hkey
      rw [revB_branch_not_taken] at hkey
      rw [hkey]
      simp only [hm]
      exact ⟨trivial, trivial⟩
    | true =>
      have hcond : decide (n.cpu.status &&& mask ≠ 0) = false :=
        decide_eq_false (not_not_intro hc)
      simp only [RevB.execEntry, hcond, if_true] at hkey
      rw [revB_branch_not_taken] at hkey
      rw [hkey]
      simp only [hm]
      exact ⟨trivial, trivial⟩
  · intro hc
    cases ifSet with
    | false =>
      have hcond : decide (n.cpu.status &&& mask = 0) = true := decide_eq_true hc
      simp only [RevB.execEntry, hcond, Bool.false_eq_true, if_false, hm] at hkey
      rw [revB_branch_taken _ hpc] at hkey
      simp only [(by omega : n.cpu.pc + 1 + 1 = n.cpu.pc + 2)] at hkey
      rw [hkey]
      unfold branchTarget
      constructor
      · rfl
      · by_cases hpage : (n.cpu.pc + 2) &&& 0xFF00 ≠
            ((Int.ofNat (n.cpu.pc + 2) +
              (if n.wram ((n.cpu.pc + 1) % 0x800) &&& 0x80 ≠ 0 then
                 (n.wram ((n.cpu.pc + 1) % 0x800) : Int) - 256
               else (n.wram ((n.cpu.pc + 1) % 0x800) : Int))).emod 0x10000).toNat &&& 0xFF00
        · rw [if_pos hpage, if_pos hpage]
        · rw [if_neg hpage, if_neg hpage]
    | true =>
      have hcond : decide (n.cpu.status &&& mask ≠ 0) = true := decide_eq_true hc
      simp only [RevB.execEntry, hcond, if_true, hm] at hkey
      rw [revB_branch_taken _ hpc] at hkey
      simp only [(by omega : n.cpu.pc + 1 + 1 = n.cpu.pc + 2)] at hkey
      rw [hkey]
      unfold branchTarget
      constructor
      · rfl
      · by_cases hpage : (n.cpu.pc + 2) &&& 0xFF00 ≠
            ((Int.ofNat (n.cpu.pc + 2) +
              (if n.wram ((n.cpu.pc + 1) % 0x800) &&& 0x80 ≠ 0 then
                 (n.wram ((n.cpu.pc + 1) % 0x800) : Int) - 256
               else (n.wram ((n.cpu.pc + 1) % 0x800) : Int))).emod 0x10000).toNat &&& 0xFF00
        · rw [if_pos hpage, if_pos hpage]
        · rw [if_neg hpage, if_neg hpage]

/-- C4 witness: the general branch theorem applied to BEQ +4 at $00FE
with Z = 1 yields PC = $0104 and 3 cycles. -/
theorem c4_witness :
    (RevB.step c4State).2.cpu.pc = 0x0104 ∧ (RevB.step c4State).1 = 3 := by
  have h := (c4_branches_hdr c4State 0x02 true rfl rfl rfl (by decide) rfl).2.1 (by decide)
  exact ⟨h.1.trans (by decide), h.2.trans (by decide)⟩

/-! ## C5: PPUDATA reads -/

/-- C5 counterexample: in revision 0.1.1b, a CPU read of `$2007` is
routed by the bus to `PPU.read(0x2007 & 7)`, a pattern-table byte read —
not to `read_data`.  With `v = $3F00` (a palette address) the claim
requires the palette byte (`0x21`) to be returned; the code returns CHR
byte 7 (`0x55`), and (the bus read being a pure function) neither `v`
nor any buffer is updated. -/
theorem c5_counterexample :
    RevA.nesRead c5CexState 0x2007 = 0x55 ∧
    c5CexState.ppu.palette (RevA.mirrorPalette 0x3F00) = 0x21 ∧
    (0x55 : Nat) ≠ 0x21 :=
  ⟨rfl, rfl, by decide⟩

/-- C5 (amended, hdr revision): a CPU read of PPU register 7 with
`v mod $4000 < $3F00` returns the read buffer's previous contents and
refills the buffer from `VRAM[v]`; with `v mod $4000 ≥ $3F00` it returns
the palette byte immediately; and every such access increments `v` by 32
when CTRL bit 2 is set and by 1 otherwise, modulo $4000. -/
theorem c5_ppudata_read_hdr (n : RevB.NES) :
    (RevB.nesRead n 0x2007).1 =
      (if n.ppu.vramAddr % 0x4000 < 0x3F00 then n.ppu.readBuffer
       else n.ppu.paletteRam (n.ppu.vramAddr % 0x4000 % 0x20)) ∧
    (RevB.nesRead n 0x2007).2.ppu.readBuffer =
      (if n.ppu.vramAddr % 0x4000 < 0x3F00 then n.ppu.vram (n.ppu.vramAddr % 0x4000)
       else n.ppu.readBuffer) ∧
    (RevB.nesRead n 0x2007).2.ppu.vramAddr =
      (n.ppu.vramAddr + (if n.ppu.ctrl &&& 0x04 ≠ 0 then 32 else 1)) % 0x4000 := by
  unfold RevB.nesRead
  norm_num
  unfold RevB.ppuReadReg
  norm_num
  split_ifs <;> simp

/-! ## C6: VBlank timing -/

/-- C6 counterexample: in revision 0.1.1b no PPU tick ever clears the
status register: the tick processing scanline 261 cycle 1 leaves VBlank,
sprite-0 hit and overflow (status `0xE0`) all set, while the claim
requires them cleared on that tick. -/
theorem c6_counterexample :
    (RevA.ppuTick c6CexState).ppu.status = 0xE0 ∧ ((0xE0 : Nat) &&& 0x80 ≠ 0) :=
  ⟨rfl, by decide⟩

/-- C6 (amended, hdr revision): the tick that reaches scanline 241 cycle
1 sets the VBlank bit and raises the CPU's `nmi_pending` exactly when
CTRL bit 7 is set; the tick that reaches scanline 261 cycle 1 clears
VBlank, sprite-0 hit and overflow (`status &= 0x1F`); every other tick
leaves the status register unchanged, so VBlank is never set outside
scanline 241 cycle 1. -/
theorem c6_vblank_hdr (n : RevB.NES) :
    (n.ppu.scanline = 241 ∧ n.ppu.cycle = 0 →
       (RevB.ppuTick n).ppu.status = n.ppu.status ||| 0x80 ∧
       (RevB.ppuTick n).cpu.nmiPending =
         (if n.ppu.ctrl &&& 0x80 ≠ 0 then true else n.cpu.nmiPending) ∧
       (RevB.ppuTick n).ppu.scanline = 241 ∧ (RevB.ppuTick n).ppu.cycle = 1) ∧
    (n.ppu.scanline = 261 ∧ n.ppu.cycle = 0 →
       (RevB.ppuTick n).ppu.status = n.ppu.status &&& 0x1F) ∧
    (¬(n.ppu.scanline = 241 ∧ n.ppu.cycle = 0) →
     ¬(n.ppu.scanline = 261 ∧ n.ppu.cycle = 0) →
       (RevB.ppuTick n).ppu.status = n.ppu.status) := by
  unfold RevB.ppuTick
  refine ⟨?_, ?_, ?_⟩
  · rintro ⟨hs, hc⟩
    simp only [hs, hc]
    norm_num
    split_ifs <;> simp_all
  · rintro ⟨hs, hc⟩
    simp only [hs, hc]
    norm_num
  · intro h1 h2
    dsimp only
    split_ifs <;> simp_all

/-- C6 witness: a tick from scanline 241 cycle 0 with NMI enabled sets
VBlank and raises `nmi_pending` on a concrete machine. -/
theorem c6_witness :
    (RevB.ppuTick c6State).ppu.status = c6State.ppu.status ||| 0x80 ∧
    (RevB.ppuTick c6State).cpu.nmiPending = true := by
  have h := (c6_vblank_hdr c6State).1 ⟨rfl, rfl⟩
  exact ⟨h.1, h.2.1.trans (by decide)⟩

/-! ## C7: OAM DMA -/

/-- C7 counterexample: with OAMADDR = 5 the claim requires OAM[5] to
receive the byte read from source offset 0 (here `wram 0 = 7`), but the
hdr revision's DMA ignores OAMADDR and stores the byte from source
offset 5 (here `wram 5 = 9`) into OAM[5]. -/
theorem c7_counterexample :
    (RevB.nesWrite c7CexState 0x4014 0).ppu.oam 5 = 9 ∧
    c7CexState.wram 0 = 7 ∧ (9 : Nat) ≠ 7 :=
  ⟨rfl, rfl, by decide⟩

/-- C7 (amended): OAM DMA copies 256 bytes with `OAM[i] ←
read((val << 8) + i)` for i in 0..255, ignoring OAMADDR.  Revision
0.1.1b charges 513 cycles to its `cycles` counter (and nothing to
`total_cycles`); the hdr revision charges no cycles at all.  (The hdr
statement is for source pages in work RAM, where bus reads are pure.) -/
theorem c7_oam_dma :
    (∀ (n : RevA.NES) (page : Nat),
       (∀ i, i < 256 →
          (RevA.dmaTransfer n page).ppu.oam i = RevA.nesRead n ((page <<< 8) + i)) ∧
       (RevA.dmaTransfer n page).cpu.cycles = n.cpu.cycles + 513 ∧
       (RevA.dmaTransfer n page).cpu.totalCycles = n.cpu.totalCycles) ∧
    (∀ (n : RevB.NES) (val : Nat), val < 0x20 →
       (∀ i, i < 256 →
          (RevB.nesWrite n 0x4014 val).ppu.oam i = n.wram (((val <<< 8) + i) % 0x800)) ∧
       (RevB.nesWrite n 0x4014 val).cpu.totalCycles = n.cpu.totalCycles) := by
  constructor
  · intro n page
    unfold RevA.dmaTransfer
    refine ⟨?_, ?_, ?_⟩
    · intro i hi
      show ((List.range 256).foldl (RevA.dmaStore (page <<< 8)) n).ppu.oam i = _
      rw [(revA_dmaLoop_oam (page <<< 8) (List.range 256) n i).1]
      rw [if_pos (List.mem_range.mpr hi)]
    · show ((List.range 256).foldl (RevA.dmaStore (page <<< 8)) n).cpu.cycles + 513 = _
      rw [(revA_dmaLoop_oam (page <<< 8) (List.range 256) n 0).2]
    · show ((List.range 256).foldl (RevA.dmaStore (page <<< 8)) n).cpu.totalCycles = _
      rw [(revA_dmaLoop_oam (page <<< 8) (List.range 256) n 0).2]
  · intro n val hval
    have hmask : val % 0x100 = val := Nat.mod_eq_of_lt (by omega)
    have hwr : RevB.nesWrite n 0x4014 val = RevB.dmaWrite n val := by
      unfold RevB.nesWrite
      norm_num
      rw [hmask]
    rw [hwr]
    unfold RevB.dmaWrite
    have hrange : ∀ i ∈ List.range 256, (val <<< 8) + i < 0x2000 := by
      intro i hi
      have := List.mem_range.mp hi
      rw [Nat.shiftLeft_eq]
      omega
    obtain ⟨hc, hw, ho⟩ := revB_dmaLoop (val <<< 8) (List.range 256) n hrange
    refine ⟨fun i hi => ?_, by rw [hc]⟩
    rw [ho i, if_pos (List.mem_range.mpr hi)]

/-- C7 witness: the hdr DMA property applied at a concrete machine, page
0, OAM index 5. -/
theorem c7_witness :
    (RevB.nesWrite c7CexState 0x4014 0).ppu.oam 5 = c7CexState.wram 5 := by
  have h := (c7_oam_dma.2 c7CexState 0 (by decide)).1 5 (by decide)
  simpa using h

/-! ## C8: controller serialization -/

/-- C8 counterexample: with the A button held (mask bit 0 = 1) and the
strobe just driven high, a read of `$4016` in the hdr revision returns
bit 0 of the shift register — which is only reloaded on the strobe's
falling edge, and still holds 0 on a fresh machine — not the live A
button bit 1 that the claim requires. -/
theorem c8_counterexample :
    (RevB.nesRead (RevB.nesWrite c8CexState 0x4016 1) 0x4016).1 = 0 ∧
    c8CexState.controller1 &&& 1 = 1 ∧ (0 : Nat) ≠ 1 :=
  ⟨rfl, by decide, by decide⟩

/-- C8 (amended, hdr revision): on a power-on machine with port-1 mask m
(m < 256), reads of `$4016` while the strobe is high return bit 0 of the
last-latched shift register (0 at power-on, not the live A bit) and do
not shift; after the strobe transitions high → low the next eight reads
return the A, B, Select, Start, Up, Down, Left, Right bits of m in that
order (LSB first), and every read after the eighth returns 1. -/
theorem c8_controller_hdr : ∀ m, m < 256 →
    (c8Reads 12 (RevB.nesWrite
        (RevB.nesWrite { RevB.initNES with controller1 := m } 0x4016 1) 0x4016 0) =
      [m % 2, m / 2 % 2, m / 4 % 2, m / 8 % 2, m / 16 % 2, m / 32 % 2, m / 64 % 2,
       m / 128 % 2, 1, 1, 1, 1]) ∧
    ((RevB.nesRead (RevB.nesWrite { RevB.initNES with controller1 := m } 0x4016 1) 0x4016).1 = 0) ∧
    ((RevB.nesRead (RevB.nesWrite { RevB.initNES with controller1 := m } 0x4016 1)
        0x4016).2.controllerShift = 0) := by
  decide

/-- C8 witness: the serialization property at the concrete mask 0xB3. -/
theorem c8_witness :
    c8Reads 12 (RevB.nesWrite
        (RevB.nesWrite { RevB.initNES with controller1 := 0xB3 } 0x4016 1) 0x4016 0) =
      [1, 1, 0, 0, 1, 1, 0, 1, 1, 1, 1, 1] := by
  have h := (c8_controller_hdr 0xB3 (by decide)).1
  exact h.trans (by decide)

/-! ## C1: PPU ticks = 3 x CPU cycles per frame; frame budget 29781 +- 1 -/

/-- C1 counterexample theorem: in the 0.1.1b revision the frame loop
performs exactly three PPU ticks per CPU *step*, not per CPU cycle: a
frame consisting of one 2-cycle NOP performs 3 PPU ticks, not 6. -/
theorem c1_counterexample :
    (RevA.runFrame c1CexState).map (fun r => (r.2.1, r.2.2)) = some (3, 2) ∧
    (3 : Nat) ≠ 3 * 2 := ⟨rfl, by decide⟩

/-- C1 (amended): in the hdr revision every frame performs exactly three
PPU ticks per CPU cycle consumed, and the frame-loop cycle budget is
29780 in the hdr revision and 29781 in the 0.1.1b revision (both within
29781 plus or minus 1); in the 0.1.1b revision the loop instead ticks the
PPU three times per CPU *step*, so the 3-to-1 tick/cycle ratio fails. -/
theorem c1_frame_ratio_hdr (rand : Nat → Nat) (n : RevB.NES) :
    (RevB.runFrame rand n).2.2 = 3 * (RevB.runFrame rand n).2.1 ∧
    RevB.targetCycles = 29780 ∧ RevA.targetCycles = 29781 := by
  refine ⟨?_, rfl, rfl⟩
  rw [revB_runFrame_ghost]
  exact revB_runFrameLoop_ratio RevB.targetCycles n 0 0 (by omega)

/-! ## C9: the framebuffer holds 6-bit palette indices -/

/-- C9 counterexample theorem: in the 0.1.1b revision `render_pixel`
stores the 24-bit RGB value `nes_palette[idx]` in the frame buffer, not a
6-bit palette index: rendering the first visible dot of a power-on
machine writes `0x666666`, which is not below 64. -/
theorem c9_counterexample :
    (RevA.renderPixel c9CexState).ppu.backBuffer 0 = 0x666666 ∧
    ¬ (0x666666 : Nat) < 64 := ⟨rfl, by decide⟩

/-- C9 (amended, hdr revision): `render_frame` writes only 6-bit palette
indices, so from any state whose framebuffer entries are all below 64
every entry of the rendered framebuffer is again a 6-bit palette index
(below 64), and the presenter's RGB lookup table has 64 entries; in the
0.1.1b revision the frame buffer instead holds pre-converted 24-bit RGB
values. -/
theorem c9_palette_indices_hdr (rand : Nat → Nat) (b : Bool) (p : RevB.PPUState)
    (h : ∀ j, p.framebuffer j < 64) :
    (∀ j, (RevB.renderFrame rand b p).framebuffer j < 64) ∧
    RevB.rgbPalette.length = 64 := by
  refine ⟨?_, rfl⟩
  cases b with
  | false =>
    rw [revB_renderFrame_fb_norom]
    refine foldl_fb_preserve _ _ ?_ p.framebuffer h
    intro fb a hfb i
    by_cases hi : i = a
    · simp only [hi, if_pos rfl]
      exact Nat.mod_lt _ (by norm_num)
    · simp only [if_neg hi]
      exact hfb i
  | true =>
    rw [revB_renderFrame_fb_rom]
    refine foldl_fb_preserve _ _ ?_ p.framebuffer h
    intro fb y hfb i
    refine foldl_fb_preserve _ _ ?_ fb hfb i
    intro fb2 x hfb2 k
    by_cases hk : k = y * 256 + x
    · simp only [hk, if_pos rfl]
      exact Nat.mod_lt _ (by norm_num)
    · simp only [if_neg hk]
      exact hfb2 k

/-- C9 witness: the index-range property at the power-on PPU with a ROM
loaded and a concrete randomness oracle. -/
theorem c9_witness :
    (∀ j, RevB.initPPU.framebuffer j < 64) ∧
    ((∀ j, (RevB.renderFrame (fun i => i * 7) true RevB.initPPU).framebuffer j < 64) ∧
      RevB.rgbPalette.length = 64) :=
  ⟨fun j => by simp [RevB.initPPU],
   c9_palette_indices_hdr (fun i => i * 7) true RevB.initPPU (fun j => by simp [RevB.initPPU])⟩

/-! ## C10: iNES loading errors -/

